import Mathlib

/-!
ValyriaTear, the audio stream controller.

Shallow embedding of `vt_audio::private_audio::AudioStream`
(`src/engine/audio/audio_stream.h`).

The header carries the class layout, the inline accessors and the inline
`SetLooping`.  The bodies of the constructor, `FillBuffer`, `Seek`,
`SetLoopStart` and `SetLoopEnd` (`audio_stream.cpp`) and the whole of
`AudioInput` (`audio_input.h`) are not embedded from code: those definitions
follow the design specification and say so in their doc comment.

Sample indices and counts are `uint32_t` in the header.  They are natural
numbers here: no operation below produces a number larger than the largest of
its arguments and the source length, so nothing can wrap around as long as the
source length itself fits in 32 bits.
-/

namespace vt_audio

/-- One decoded sample (a channel frame) of the source, as a number. -/
abbrev Sample := Nat

/-- Modelled from the spec: the `AudioInput` class (`audio_input.h`) is missing.
The Sample Source of spec section 6: decoded data of known length and a read
cursor. -/
structure AudioInput where
  /-- The decoded samples of the whole source, in order. -/
  data : List Sample
  /-- The source position at which the next `Read` starts. -/
  position : Nat
deriving DecidableEq, Repr

namespace AudioInput

/-- Modelled from the spec: `AudioInput` is missing.
"`TotalSamples() → count`": the known length of the source. -/
def TotalSamples (input : AudioInput) : Nat :=
  input.data.length

/-- Modelled from the spec: `AudioInput` is missing.
"`Seek(sampleIndex)` — positions the next read." -/
def Seek (input : AudioInput) (sampleIndex : Nat) : AudioInput :=
  { input with position := sampleIndex }

/-- Modelled from the spec: `AudioInput` is missing.
"`Read(destination, count) → producedCount` — copies up to `count` samples
starting at the current position; `producedCount < count` signals source
exhaustion at that call."  The copied samples are returned with the source
advanced past them; `producedCount` is their number. -/
def Read (input : AudioInput) (count : Nat) : List Sample × AudioInput :=
  let produced := (input.data.drop input.position).take count
  (produced, { input with position := input.position + produced.length })

end AudioInput

/-- The data members of `class AudioStream` (audio_stream.h, lines 96-113). -/
structure AudioStream where
  /-- `_audio_input`: the input object that holds the audio data. -/
  _audio_input : AudioInput
  /-- `_looping`: set to true when the stream should loop. -/
  _looping : Bool
  /-- `_loop_start_position`: the sample that starts the loop. -/
  _loop_start_position : Nat
  /-- `_loop_end_position`: the sample that ends the loop (exclusive). -/
  _loop_end_position : Nat
  /-- `_read_position`: where the next read operation is performed. -/
  _read_position : Nat
  /-- `_end_of_stream`: true if the end of the stream was reached. -/
  _end_of_stream : Bool
deriving DecidableEq, Repr

/-- What one `FillBuffer` call leaves behind: the stream, the samples written
to the caller's buffer in order, the returned count, and (a ghost counter) the
number of wraps to the loop start performed during the call. -/
structure FillResult where
  /-- The stream state after the call. -/
  stream : AudioStream
  /-- The samples written into the buffer, first to last. -/
  buffer : List Sample
  /-- The return value: the number of samples written. -/
  samples_read : Nat
  /-- Ghost: how many times the call moved the stream to the loop start. -/
  wraps : Nat
deriving DecidableEq, Repr

namespace AudioStream

/-- Modelled from the spec: the constructor body (audio_stream.cpp) is missing.
`AudioStream(AudioInput *input, bool loop)`: "loop: if true, enables looping".
The stream starts at sample 0 with the loop window covering the whole source
("`loopEnd`: ... or source length") and has not reached its end. -/
def create (input : AudioInput) (loop : Bool) : AudioStream :=
  { _audio_input := input
    _looping := loop
    _loop_start_position := 0
    _loop_end_position := input.TotalSamples
    _read_position := 0
    _end_of_stream := false }

/-- `uint32_t GetCurrentSamplePosition() const { return _read_position; }` -/
def GetCurrentSamplePosition (st : AudioStream) : Nat :=
  st._read_position

/-- `bool IsLooping() const { return _looping; }` -/
def IsLooping (st : AudioStream) : Bool :=
  st._looping

/-- `bool GetEndOfStream() const { return _end_of_stream; }` -/
def GetEndOfStream (st : AudioStream) : Bool :=
  st._end_of_stream

/-- `void SetLooping(bool loop) { _looping = loop; if(loop) _end_of_stream = false; }` -/
def SetLooping (st : AudioStream) (loop : Bool) : AudioStream :=
  let st1 := { st with _looping := loop }
  if loop then { st1 with _end_of_stream := false } else st1

/-- Modelled from the spec: the body of `SetLoopStart` is missing.
"Update the loop window boundaries ... the controller does not reject this at
set time". -/
def SetLoopStart (st : AudioStream) (sample : Nat) : AudioStream :=
  { st with _loop_start_position := sample }

/-- Modelled from the spec: the body of `SetLoopEnd` is missing.
"Update the loop window boundaries ... the controller does not reject this at
set time". -/
def SetLoopEnd (st : AudioStream) (sample : Nat) : AudioStream :=
  { st with _loop_end_position := sample }

/-- Modelled from the spec: the body of `Seek` is missing.
"Moves `readPosition` to the given absolute sample index and forwards the same
seek to the Sample Source so subsequent reads start there.  Seeking outside
`[0, sourceLength)` when source length is known is clamped to the nearest valid
bound; seeking when looping is enabled does not implicitly clamp into the loop
region.  Clears `endOfStream` if the new position is before the known end of
data."  A target at or beyond the source length is nearest to the bound
`sourceLength`; the position it lands on is then not before the end of data and
the flag is left as it was. -/
def Seek (st : AudioStream) (sample : Nat) : AudioStream :=
  let target := min sample st._audio_input.TotalSamples
  { st with
    _audio_input := st._audio_input.Seek target
    _read_position := target
    _end_of_stream :=
      if target < st._audio_input.TotalSamples then false else st._end_of_stream }

/-- Modelled from the spec: part of the missing `FillBuffer` body.
One span request: "requests spans from the Sample Source starting at
`readPosition`" (the source is positioned at `readPosition` and asked for
`count` samples), after which "`readPosition` is advanced by exactly" the
number of samples the source produced. -/
def requestSpan (st : AudioStream) (count : Nat) : List Sample × AudioStream :=
  let result := (st._audio_input.Seek st._read_position).Read count
  (result.1,
   { st with
     _audio_input := result.2
     _read_position := st._read_position + result.1.length })

/-- Modelled from the spec: part of the missing `FillBuffer` body.
The number of samples "from `readPosition` up to `loopEnd`": none once the
position is at or beyond the loop end. -/
def samplesToLoopEnd (st : AudioStream) : Nat :=
  if st._read_position < st._loop_end_position then
    st._loop_end_position - st._read_position
  else 0

/-- Modelled from the spec: part of the missing `FillBuffer` body.
The wrap: the stream re-enters `loopStart`, in the source as well. -/
def wrapToLoopStart (st : AudioStream) : AudioStream :=
  { st with
    _audio_input := st._audio_input.Seek st._loop_start_position
    _read_position := st._loop_start_position }

/-- Modelled from the spec: part of the missing `FillBuffer` body.
Step (b) of a looping fill, repeated: while "more of `size` remains", wrap and
request "a fresh span starting at `loopStart`" that ends at `loopEnd` at the
latest, "continuing until `size` is satisfied or the source cannot supply
more".  A wrap after which the source produces nothing ends the call ("one
extra read attempt per `FillBuffer` call before giving up"), with
`endOfStream` untouched.  Every round that recurses has written at least one
sample, so `fuel = remaining` rounds always suffice. -/
def fillWrapped : Nat → FillResult → Nat → FillResult
  | 0, acc, _ => acc
  | fuel + 1, acc, remaining =>
    if remaining = 0 then acc
    else
      let wrapped := acc.stream.wrapToLoopStart
      let result := wrapped.requestSpan (min remaining wrapped.samplesToLoopEnd)
      let acc1 : FillResult :=
        { stream := result.2
          buffer := acc.buffer ++ result.1
          samples_read := acc.samples_read + result.1.length
          wraps := acc.wraps + 1 }
      if result.1.length = 0 then acc1
      else fillWrapped fuel acc1 (remaining - result.1.length)

/-- Modelled from the spec: the body of `FillBuffer` is missing.
`FillBuffer` with the number of rounds of the wrap loop made explicit.

* "`size == 0` is a no-op returning 0."
* Looping disabled: one request of `size` samples from `readPosition`; "if
  looping is disabled and the source reports fewer samples than requested
  (source exhausted), the controller sets `endOfStream = true` and returns the
  partial count — it does not pad with silence".
* Looping enabled: "(a) the remaining samples from `readPosition` up to
  `loopEnd`, then, if looping and more of `size` remains, (b) a fresh span
  starting at `loopStart`" (see `fillWrapped`); `endOfStream` is never set. -/
def FillBufferFuel (fuel : Nat) (st : AudioStream) (size : Nat) : FillResult :=
  if size = 0 then
    { stream := st, buffer := [], samples_read := 0, wraps := 0 }
  else if st._looping then
    let result := st.requestSpan (min size st.samplesToLoopEnd)
    fillWrapped fuel
      { stream := result.2
        buffer := result.1
        samples_read := result.1.length
        wraps := 0 }
      (size - result.1.length)
  else
    let result := st.requestSpan size
    { stream :=
        { result.2 with
          _end_of_stream :=
            if result.1.length < size then true else result.2._end_of_stream }
      buffer := result.1
      samples_read := result.1.length
      wraps := 0 }

/-- Modelled from the spec: the body of `FillBuffer` is missing.
`uint32_t FillBuffer(uint8_t *buffer, uint32_t size)`, in the header "Fills a
buffer with data read from the stream", returning "the number of samples which
were read, which may be different from size".  The wrap loop is given `size` rounds, which
is never fewer than it needs (`FillBufferFuel_eq_FillBuffer`). -/
def FillBuffer (st : AudioStream) (size : Nat) : FillResult :=
  FillBufferFuel size st size

end AudioStream

/-- The samples of the source at the absolute positions `[first, last)`. -/
def sourceSpan (input : AudioInput) (first last : Nat) : List Sample :=
  (input.data.drop first).take (last - first)

/-- The class note of `AudioStream`: "The _end_of_stream will never be set to
true while the stream has looping enabled." -/
def LoopingInvariant (st : AudioStream) : Prop :=
  st._looping = true → st._end_of_stream = false

/-- The states an `AudioStream` can be in: what the constructor builds, and
whatever a public mutating operation makes of such a state. -/
inductive Reachable : AudioStream → Prop
  | create (input : AudioInput) (loop : Bool) :
      Reachable (AudioStream.create input loop)
  | FillBuffer {st : AudioStream} (size : Nat) :
      Reachable st → Reachable (st.FillBuffer size).stream
  | Seek {st : AudioStream} (sample : Nat) :
      Reachable st → Reachable (st.Seek sample)
  | SetLooping {st : AudioStream} (loop : Bool) :
      Reachable st → Reachable (st.SetLooping loop)
  | SetLoopStart {st : AudioStream} (sample : Nat) :
      Reachable st → Reachable (st.SetLoopStart sample)
  | SetLoopEnd {st : AudioStream} (sample : Nat) :
      Reachable st → Reachable (st.SetLoopEnd sample)

/-- A source of 300 samples in which sample `i` has the value `i`. -/
def rampInput : AudioInput :=
  { data := List.range 300, position := 0 }

/-- A stream without looping at position 1 of a source of three samples. -/
def exhaustExample : AudioStream :=
  { _audio_input := { data := [7, 8, 9], position := 1 }
    _looping := false
    _loop_start_position := 0
    _loop_end_position := 3
    _read_position := 1
    _end_of_stream := false }

/-- The stream of the spec's degenerate example: a looping stream with
`loopStart = loopEnd = 50`, standing at sample 50. -/
def zeroWidthExample : AudioStream :=
  { _audio_input := { data := List.range 300, position := 50 }
    _looping := true
    _loop_start_position := 50
    _loop_end_position := 50
    _read_position := 50
    _end_of_stream := false }

/-- A looping stream over five samples with the loop window `[1, 3)`, at the
start of the source. -/
def loopEndSeekExample : AudioStream :=
  { _audio_input := { data := [10, 11, 12, 13, 14], position := 0 }
    _looping := true
    _loop_start_position := 1
    _loop_end_position := 3
    _read_position := 0
    _end_of_stream := false }

/-- The stream of the spec's loop-wrap example: loop window `[100, 200)`,
read position 190, looping. -/
def wrapExample : AudioStream :=
  { _audio_input := rampInput
    _looping := true
    _loop_start_position := 100
    _loop_end_position := 200
    _read_position := 190
    _end_of_stream := false }

end vt_audio

/-!
ValyriaTear, the global game objects.

Shallow embedding of `src/common/global/global_objects.h`,
`global_objects.cpp` and of `GlobalCreateNewObject` in `global_utils.cpp`.
The constants and enumerations of `global_utils.h`, the script reader
(`engine/script/script.h`) and the `GlobalManager` singleton (`global.h`) are
used by this code but declared elsewhere: the constants are parameters
(`GlobalConstants`), the script reader and the manager are the data the code
reads from them.  Members of type `uint32_t` are natural numbers; the one
subtraction on them is taken modulo `2^32`.
-/

namespace vt_global

/-- The id limits and the enumeration bounds of `global_utils.h` that the
embedded code compares against.  Their values are not fixed here: every
definition that uses one of them takes the constants as a parameter. -/
structure GlobalConstants where
  /-- `MAX_ITEM_ID` -/
  MAX_ITEM_ID : Nat
  /-- `MAX_WEAPON_ID` -/
  MAX_WEAPON_ID : Nat
  /-- `MAX_HEAD_ARMOR_ID` -/
  MAX_HEAD_ARMOR_ID : Nat
  /-- `MAX_TORSO_ARMOR_ID` -/
  MAX_TORSO_ARMOR_ID : Nat
  /-- `MAX_ARM_ARMOR_ID` -/
  MAX_ARM_ARMOR_ID : Nat
  /-- `MAX_LEG_ARMOR_ID` -/
  MAX_LEG_ARMOR_ID : Nat
  /-- `MAX_SPIRIT_ID` -/
  MAX_SPIRIT_ID : Nat
  /-- `MAX_KEY_ITEM_ID` -/
  MAX_KEY_ITEM_ID : Nat
  /-- `GLOBAL_TARGET_INVALID`, as the integer value of the enumerator. -/
  GLOBAL_TARGET_INVALID : Int
  /-- `GLOBAL_STATUS_INVALID`, as the integer value of the enumerator. -/
  GLOBAL_STATUS_INVALID : Int
  /-- `GLOBAL_STATUS_TOTAL` -/
  GLOBAL_STATUS_TOTAL : Int
  /-- `GLOBAL_INTENSITY_INVALID` -/
  GLOBAL_INTENSITY_INVALID : Int
  /-- `GLOBAL_INTENSITY_NEUTRAL` -/
  GLOBAL_INTENSITY_NEUTRAL : Int
  /-- `GLOBAL_INTENSITY_TOTAL` -/
  GLOBAL_INTENSITY_TOTAL : Int
deriving DecidableEq, Repr

/-- The enumeration `GLOBAL_OBJECT` of `global_utils.h`, with the enumerators
that the embedded code names (`GlobalMedia::GetItemCategoryIcon` lists them). -/
inductive GLOBAL_OBJECT where
  | GLOBAL_OBJECT_INVALID
  | GLOBAL_OBJECT_ITEM
  | GLOBAL_OBJECT_WEAPON
  | GLOBAL_OBJECT_HEAD_ARMOR
  | GLOBAL_OBJECT_TORSO_ARMOR
  | GLOBAL_OBJECT_ARM_ARMOR
  | GLOBAL_OBJECT_LEG_ARMOR
  | GLOBAL_OBJECT_SPIRIT
  | GLOBAL_OBJECT_TOTAL
deriving DecidableEq, Repr

/-- The conversion of an `int32_t` to `uint32_t`: the value modulo `2^32`. -/
def toUInt32 (value : Int) : Nat :=
  (value % 4294967296).toNat

/-- The subtraction `a - b` of two `uint32_t` values: modulo `2^32`. -/
def sub32 (a b : Nat) : Nat :=
  (a + 4294967296 - b) % 4294967296

/-- The addition `a + b` of two `uint32_t` values: modulo `2^32`. -/
def add32 (a b : Nat) : Nat :=
  (a + b) % 4294967296

/-- A sub-table of a definition script as the code reads it: the keys that
`ReadTableKeys` returns, in the order it returns them, and the value that
`ReadInt(key)` returns for a key once the table is open. -/
structure ScriptTable (Key : Type) where
  /-- What `ReadTableKeys` puts in the key vector. -/
  keys : List Key
  /-- What `ReadInt(key)` returns. -/
  ReadInt : Key → Int

/-- The table of one object id in a definition script, as the values that the
`Read...` calls of the constructors return once that table is open. -/
structure ObjectTable where
  /-- `ReadString("name")` -/
  name : String
  /-- `ReadString("description")` -/
  description : String
  /-- `ReadUInt("standard_price")` -/
  standard_price : Nat
  /-- The sub-table `trade_conditions`, if `DoesTableExist` finds it; its keys
  are read into a `std::vector<uint32_t>`. -/
  trade_conditions : Option (ScriptTable Nat)
  /-- `ReadString("icon")` -/
  icon : String
  /-- Whether `_icon_image.Load(icon_file)` succeeds. -/
  icon_loads : Bool
  /-- `ReadBool("key_item")`, if `DoesBoolExist("key_item")`. -/
  key_item : Option Bool
  /-- The sub-table `status_effects`, if `DoesTableExist` finds it; its keys
  are read into a `std::vector<int32_t>`. -/
  status_effects : Option (ScriptTable Int)
  /-- `ReadUIntVector("equipment_skills", ...)`, if the table exists. -/
  equipment_skills : Option (List Nat)
  /-- `ReadInt("target_type")` (items) -/
  target_type : Int
  /-- `ReadUInt("warmup_time")` (items) -/
  warmup_time : Nat
  /-- `ReadUInt("cooldown_time")` (items) -/
  cooldown_time : Nat
  /-- `ReadUInt("physical_attack")` (weapons) -/
  physical_attack : Nat
  /-- `ReadUInt("magical_attack")` (weapons) -/
  magical_attack : Nat
  /-- `ReadUInt("physical_defense")` (armor) -/
  physical_defense : Nat
  /-- `ReadUInt("magical_defense")` (armor) -/
  magical_defense : Nat
  /-- `ReadUInt("usable_by")` (weapons and armor) -/
  usable_by : Nat
  /-- `ReadUInt("slots")` (weapons and armor) -/
  slots : Nat
  /-- `ReadString("battle_ammo_animation_file")` (weapons) -/
  battle_ammo_animation_file : String

/-- A definition script as a constructor sees it: the table of each object id,
if `DoesTableExist(id)` finds one, and what `IsErrorDetected()` answers after
the constructor has read its data. -/
structure ReadScriptDescriptor where
  /-- The table that `OpenTable(id)` opens; `none` if `DoesTableExist(id)` is false. -/
  tables : Nat → Option ObjectTable
  /-- `IsErrorDetected()` -/
  error_detected : Bool

/-- The definition scripts that `GlobalManager` hands out. -/
structure GameGlobal where
  /-- `GlobalManager->GetItemsScript()` -/
  GetItemsScript : ReadScriptDescriptor
  /-- `GlobalManager->GetWeaponsScript()` -/
  GetWeaponsScript : ReadScriptDescriptor
  /-- `GlobalManager->GetHeadArmorScript()` -/
  GetHeadArmorScript : ReadScriptDescriptor
  /-- `GlobalManager->GetTorsoArmorScript()` -/
  GetTorsoArmorScript : ReadScriptDescriptor
  /-- `GlobalManager->GetArmArmorScript()` -/
  GetArmArmorScript : ReadScriptDescriptor
  /-- `GlobalManager->GetLegArmorScript()` -/
  GetLegArmorScript : ReadScriptDescriptor
  /-- `GlobalManager->GetSpiritsScript()` -/
  GetSpiritsScript : ReadScriptDescriptor

/-- The data members of `class GlobalObject` (global_objects.h, lines 160-200).
A status effect is the pair of the integer values of its `GLOBAL_STATUS` and
its `GLOBAL_INTENSITY`; the icon image is the name of the file loaded into
it. -/
structure GlobalObject where
  /-- `_id`: "An ID number of zero indicates an invalid object". -/
  _id : Nat
  /-- `_name` -/
  _name : String
  /-- `_description` -/
  _description : String
  /-- `_is_key_item` -/
  _is_key_item : Bool
  /-- `_count` -/
  _count : Nat
  /-- `_price` -/
  _price : Nat
  /-- `_trade_price` -/
  _trade_price : Nat
  /-- `_trade_conditions`: pairs `<item_id, number>`. -/
  _trade_conditions : List (Nat × Nat)
  /-- `_icon_image` -/
  _icon_image : String
  /-- `_status_effects` -/
  _status_effects : List (Int × Int)
  /-- `_equipment_skills` -/
  _equipment_skills : List Nat
deriving DecidableEq, Repr

namespace GlobalObject

/-- The constructor `GlobalObject()`: id 0, no key item, count 0, prices 0; the
strings and containers start empty. -/
def create_default : GlobalObject :=
  { _id := 0
    _name := ""
    _description := ""
    _is_key_item := false
    _count := 0
    _price := 0
    _trade_price := 0
    _trade_conditions := []
    _icon_image := ""
    _status_effects := []
    _equipment_skills := [] }

/-- The constructor `explicit GlobalObject(uint32_t id, uint32_t count = 1)`. -/
def create (id count : Nat) : GlobalObject :=
  { _id := id
    _name := ""
    _description := ""
    _is_key_item := false
    _count := count
    _price := 0
    _trade_price := 0
    _trade_conditions := []
    _icon_image := ""
    _status_effects := []
    _equipment_skills := [] }

/-- `bool IsValid() const { return (_id != 0); }` -/
def IsValid (obj : GlobalObject) : Bool :=
  obj._id != 0

/-- `bool IsKeyItem() const { return _is_key_item; }` -/
def IsKeyItem (obj : GlobalObject) : Bool :=
  obj._is_key_item

/-- `void IncrementCount(uint32_t count = 1) { _count += count; }` -/
def IncrementCount (obj : GlobalObject) (count : Nat) : GlobalObject :=
  { obj with _count := add32 obj._count count }

/-- `void DecrementCount(uint32_t count = 1)`:
`if(count > _count) _count = 0; else _count -= count;` -/
def DecrementCount (obj : GlobalObject) (count : Nat) : GlobalObject :=
  if count > obj._count then { obj with _count := 0 }
  else { obj with _count := sub32 obj._count count }

/-- `uint32_t GetID() const { return _id; }` -/
def GetID (obj : GlobalObject) : Nat :=
  obj._id

/-- `uint32_t GetCount() const { return _count; }` -/
def GetCount (obj : GlobalObject) : Nat :=
  obj._count

/-- `uint32_t GetPrice() const { return _price; }` -/
def GetPrice (obj : GlobalObject) : Nat :=
  obj._price

/-- `uint32_t GetTradingPrice() const { return _trade_price; }` -/
def GetTradingPrice (obj : GlobalObject) : Nat :=
  obj._trade_price

/-- `GetTradeConditions()` returns `_trade_conditions`. -/
def GetTradeConditions (obj : GlobalObject) : List (Nat × Nat) :=
  obj._trade_conditions

/-- `GetStatusEffects()` returns `_status_effects`. -/
def GetStatusEffects (obj : GlobalObject) : List (Int × Int) :=
  obj._status_effects

/-- `void _InvalidateObject() { _id = 0; }` -/
def _InvalidateObject (obj : GlobalObject) : GlobalObject :=
  { obj with _id := 0 }

/-- `GlobalObject::_LoadTradeConditions`, the body of its loop for one key:
`uint32_t quantity = script.ReadInt(key);` then
`if (key == 0) _trade_price = quantity; else _trade_conditions.push_back(...)`. -/
def tradeConditionStep (table : ScriptTable Nat) (obj : GlobalObject) (key : Nat) :
    GlobalObject :=
  let quantity := toUInt32 (table.ReadInt key)
  if key = 0 then { obj with _trade_price := quantity }
  else { obj with _trade_conditions := obj._trade_conditions ++ [(key, quantity)] }

/-- `void GlobalObject::_LoadTradeConditions(ReadScriptDescriptor &script)`:
returns at once if the table `trade_conditions` does not exist or has no keys,
else runs the loop over the keys in the order `ReadTableKeys` gave them. -/
def _LoadTradeConditions (obj : GlobalObject) (script : ObjectTable) : GlobalObject :=
  match script.trade_conditions with
  | none => obj
  | some table =>
    if table.keys.isEmpty then obj
    else table.keys.foldl (tradeConditionStep table) obj

/-- `void GlobalObject::_LoadObjectData(ReadScriptDescriptor &script)`.  When
the icon fails to load the default icon is loaded in its place. -/
def _LoadObjectData (obj : GlobalObject) (script : ObjectTable) : GlobalObject :=
  let obj1 := { obj with
    _name := script.name
    _description := script.description
    _price := script.standard_price }
  let obj2 := obj1._LoadTradeConditions script
  let obj3 :=
    match script.key_item with
    | some flag => { obj2 with _is_key_item := flag }
    | none => obj2
  if script.icon_loads then { obj3 with _icon_image := script.icon }
  else { obj3 with _icon_image := "data/gui/battle/default_special.png" }

/-- `static bool CompareStatusEffects(one, other)`: "Compares the status effect
id, used to sort them."  `uint32_t status1 = one.first; uint32_t status2 =
other.first; return (status1 < status2);` -/
def CompareStatusEffects (one other : Int × Int) : Bool :=
  let status1 := toUInt32 one.1
  let status2 := toUInt32 other.1
  decide (status1 < status2)

/-- `std::sort(_status_effects.begin(), _status_effects.end(),
CompareStatusEffects)`.  The library routine is modelled by insertion sort: an
element is put before another only if the comparison does not rank the other
one first.  When no two elements compare as equivalent every sorting routine
returns this same list (`sortStatusEffects_unique`). -/
def sortStatusEffects (effects : List (Int × Int)) : List (Int × Int) :=
  effects.insertionSort (fun one other => CompareStatusEffects other one = false)

/-- The pair that the loop of `_LoadStatusEffects` pushes for a key, if it
pushes one (`statusEffectStep` appends exactly this). -/
def storedStatusEffect (K : GlobalConstants) (table : ScriptTable Int) (key : Int) :
    Option (Int × Int) :=
  if key ≤ K.GLOBAL_STATUS_INVALID ∨ key ≥ K.GLOBAL_STATUS_TOTAL then none
  else if table.ReadInt key ≤ K.GLOBAL_INTENSITY_INVALID
      ∨ table.ReadInt key ≥ K.GLOBAL_INTENSITY_TOTAL then none
  else some (key, table.ReadInt key)

/-- `GlobalObject::_LoadStatusEffects`, the body of its loop for one key: a key
outside the status range is skipped, so is an intensity outside the range the
code checks, and what is left is pushed on `_status_effects`. -/
def statusEffectStep (K : GlobalConstants) (table : ScriptTable Int)
    (effects : List (Int × Int)) (key : Int) : List (Int × Int) :=
  if key ≤ K.GLOBAL_STATUS_INVALID ∨ key ≥ K.GLOBAL_STATUS_TOTAL then effects
  else
    let intensity := table.ReadInt key
    if intensity ≤ K.GLOBAL_INTENSITY_INVALID ∨ intensity ≥ K.GLOBAL_INTENSITY_TOTAL then
      effects
    else effects ++ [(key, intensity)]

/-- `void GlobalObject::_LoadStatusEffects(ReadScriptDescriptor &script)`:
returns at once if the table `status_effects` does not exist or has no keys,
else runs the loop over the keys and sorts `_status_effects`. -/
def _LoadStatusEffects (K : GlobalConstants) (obj : GlobalObject) (script : ObjectTable) :
    GlobalObject :=
  match script.status_effects with
  | none => obj
  | some table =>
    if table.keys.isEmpty then obj
    else
      { obj with
        _status_effects :=
          sortStatusEffects (table.keys.foldl (statusEffectStep K table) obj._status_effects) }

/-- `void GlobalObject::_LoadEquipmentSkills(ReadScriptDescriptor &script)`:
clears the skills, then reads the vector `equipment_skills` if it exists. -/
def _LoadEquipmentSkills (obj : GlobalObject) (script : ObjectTable) : GlobalObject :=
  match script.equipment_skills with
  | none => { obj with _equipment_skills := [] }
  | some skills => { obj with _equipment_skills := skills }

end GlobalObject

/-- `std::vector::resize(count, value)`: the first `count` elements, filled up
with copies of `value` if there were fewer. -/
def resize {α : Type} (v : List α) (count : Nat) (value : α) : List α :=
  v.take count ++ List.replicate (count - v.length) value

/-- The `class GlobalItem : public GlobalObject`.  The two script function
references and the animation script map are left out: they hold handles into
the script engine. -/
structure GlobalItem extends GlobalObject where
  /-- `_target_type`, as the integer value of the `GLOBAL_TARGET`. -/
  _target_type : Int
  /-- `_warmup_time` -/
  _warmup_time : Nat
  /-- `_cooldown_time` -/
  _cooldown_time : Nat
deriving DecidableEq, Repr

/-- The `class GlobalSpirit : public GlobalObject`, which adds no member. -/
structure GlobalSpirit extends GlobalObject where
deriving DecidableEq, Repr

/-- The `class GlobalWeapon : public GlobalObject`.  The weapon animation map
is left out.  A spirit slot is a pointer to a spirit, `none` for `nullptr`.
The constructor leaves the three numbers unset when it returns early; they
are 0 here. -/
structure GlobalWeapon extends GlobalObject where
  /-- `_ammo_animation_file` -/
  _ammo_animation_file : String
  /-- `_physical_attack` -/
  _physical_attack : Nat
  /-- `_magical_attack` -/
  _magical_attack : Nat
  /-- `_usable_by` -/
  _usable_by : Nat
  /-- `_spirit_slots` -/
  _spirit_slots : List (Option GlobalSpirit)
deriving DecidableEq, Repr

/-- The `class GlobalArmor : public GlobalObject`.  A spirit slot is a pointer
to a spirit, `none` for `nullptr`.  The constructor leaves the three numbers
unset when it returns early; they are 0 here. -/
structure GlobalArmor extends GlobalObject where
  /-- `_physical_defense` -/
  _physical_defense : Nat
  /-- `_magical_defense` -/
  _magical_defense : Nat
  /-- `_usable_by` -/
  _usable_by : Nat
  /-- `_spirit_slots` -/
  _spirit_slots : List (Option GlobalSpirit)
deriving DecidableEq, Repr

/-- The clamp of both equipment constructors: "Only permit a max of 5 spirits
for equipment", `if (spirits_number > 5) spirits_number = 5;`. -/
def clampSpiritsNumber (spirits_number : Nat) : Nat :=
  if spirits_number > 5 then 5 else spirits_number

namespace GlobalItem

/-- The constructor `GlobalItem::GlobalItem(uint32_t id, uint32_t count)`
(global_objects.cpp, lines 133-179), without the script function references
and the animation scripts. -/
def create (K : GlobalConstants) (G : GameGlobal) (id count : Nat) : GlobalItem :=
  let item : GlobalItem :=
    { toGlobalObject := GlobalObject.create id count
      _target_type := K.GLOBAL_TARGET_INVALID
      _warmup_time := 0
      _cooldown_time := 0 }
  if id = 0 ∨ (id > K.MAX_ITEM_ID ∧ (id ≤ K.MAX_SPIRIT_ID ∧ id > K.MAX_KEY_ITEM_ID)) then
    { item with toGlobalObject := item.toGlobalObject._InvalidateObject }
  else
    match G.GetItemsScript.tables id with
    | none => { item with toGlobalObject := item.toGlobalObject._InvalidateObject }
    | some table =>
      let loaded : GlobalItem :=
        { toGlobalObject := item.toGlobalObject._LoadObjectData table
          _target_type := table.target_type
          _warmup_time := table.warmup_time
          _cooldown_time := table.cooldown_time }
      if G.GetItemsScript.error_detected then
        { loaded with toGlobalObject := loaded.toGlobalObject._InvalidateObject }
      else loaded

end GlobalItem

namespace GlobalWeapon

/-- The constructor `GlobalWeapon::GlobalWeapon(uint32_t id, uint32_t count)`
(global_objects.cpp, lines 232-287), without the battle animations. -/
def create (K : GlobalConstants) (G : GameGlobal) (id count : Nat) : GlobalWeapon :=
  let weapon : GlobalWeapon :=
    { toGlobalObject := GlobalObject.create id count
      _ammo_animation_file := ""
      _physical_attack := 0
      _magical_attack := 0
      _usable_by := 0
      _spirit_slots := [] }
  if id ≤ K.MAX_ITEM_ID ∨ id > K.MAX_WEAPON_ID then
    { weapon with toGlobalObject := weapon.toGlobalObject._InvalidateObject }
  else
    match G.GetWeaponsScript.tables id with
    | none => { weapon with toGlobalObject := weapon.toGlobalObject._InvalidateObject }
    | some table =>
      let loaded : GlobalWeapon :=
        { toGlobalObject :=
            (((weapon.toGlobalObject._LoadObjectData table)._LoadStatusEffects K
              table)._LoadEquipmentSkills table)
          _physical_attack := table.physical_attack
          _magical_attack := table.magical_attack
          _usable_by := table.usable_by
          _spirit_slots := resize weapon._spirit_slots (clampSpiritsNumber table.slots) none
          _ammo_animation_file := table.battle_ammo_animation_file }
      if G.GetWeaponsScript.error_detected then
        { loaded with toGlobalObject := loaded.toGlobalObject._InvalidateObject }
      else loaded

end GlobalWeapon

namespace GlobalArmor

/-- `GLOBAL_OBJECT GlobalArmor::GetObjectType() const`: "Returns the approriate
armor type (head, torso, arm, leg) depending on the object ID". -/
def GetObjectType (K : GlobalConstants) (armor : GlobalArmor) : GLOBAL_OBJECT :=
  if armor._id > K.MAX_WEAPON_ID ∧ armor._id ≤ K.MAX_HEAD_ARMOR_ID then
    GLOBAL_OBJECT.GLOBAL_OBJECT_HEAD_ARMOR
  else if armor._id > K.MAX_HEAD_ARMOR_ID ∧ armor._id ≤ K.MAX_TORSO_ARMOR_ID then
    GLOBAL_OBJECT.GLOBAL_OBJECT_TORSO_ARMOR
  else if armor._id > K.MAX_TORSO_ARMOR_ID ∧ armor._id ≤ K.MAX_ARM_ARMOR_ID then
    GLOBAL_OBJECT.GLOBAL_OBJECT_ARM_ARMOR
  else if armor._id > K.MAX_ARM_ARMOR_ID ∧ armor._id ≤ K.MAX_LEG_ARMOR_ID then
    GLOBAL_OBJECT.GLOBAL_OBJECT_LEG_ARMOR
  else
    GLOBAL_OBJECT.GLOBAL_OBJECT_INVALID

/-- The `switch(GetObjectType())` of the armor constructor: the script to read
the armor from, and `none` for its `default:` branch ("could not determine
armor type"). -/
def selectScript (K : GlobalConstants) (G : GameGlobal) (armor : GlobalArmor) :
    Option ReadScriptDescriptor :=
  match armor.GetObjectType K with
  | GLOBAL_OBJECT.GLOBAL_OBJECT_HEAD_ARMOR => some G.GetHeadArmorScript
  | GLOBAL_OBJECT.GLOBAL_OBJECT_TORSO_ARMOR => some G.GetTorsoArmorScript
  | GLOBAL_OBJECT.GLOBAL_OBJECT_ARM_ARMOR => some G.GetArmArmorScript
  | GLOBAL_OBJECT.GLOBAL_OBJECT_LEG_ARMOR => some G.GetLegArmorScript
  | _ => none

/-- The constructor `GlobalArmor::GlobalArmor(uint32_t id, uint32_t count)`
(global_objects.cpp, lines 342-406). -/
def create (K : GlobalConstants) (G : GameGlobal) (id count : Nat) : GlobalArmor :=
  let armor : GlobalArmor :=
    { toGlobalObject := GlobalObject.create id count
      _physical_defense := 0
      _magical_defense := 0
      _usable_by := 0
      _spirit_slots := [] }
  if id ≤ K.MAX_WEAPON_ID ∨ id > K.MAX_LEG_ARMOR_ID then
    { armor with toGlobalObject := armor.toGlobalObject._InvalidateObject }
  else
    match armor.selectScript K G with
    | none => { armor with toGlobalObject := armor.toGlobalObject._InvalidateObject }
    | some script_file =>
      match script_file.tables id with
      | none => { armor with toGlobalObject := armor.toGlobalObject._InvalidateObject }
      | some table =>
        let loaded : GlobalArmor :=
          { toGlobalObject :=
              (((armor.toGlobalObject._LoadObjectData table)._LoadStatusEffects K
                table)._LoadEquipmentSkills table)
            _physical_defense := table.physical_defense
            _magical_defense := table.magical_defense
            _usable_by := table.usable_by
            _spirit_slots := resize armor._spirit_slots (clampSpiritsNumber table.slots) none }
        if script_file.error_detected then
          { loaded with toGlobalObject := loaded.toGlobalObject._InvalidateObject }
        else loaded

end GlobalArmor

namespace GlobalSpirit

/-- The constructor `GlobalSpirit::GlobalSpirit(uint32_t id, uint32_t count)`
(global_objects.cpp, lines 428-455). -/
def create (K : GlobalConstants) (G : GameGlobal) (id count : Nat) : GlobalSpirit :=
  let spirit : GlobalSpirit := { toGlobalObject := GlobalObject.create id count }
  if id ≤ K.MAX_LEG_ARMOR_ID ∨ id > K.MAX_SPIRIT_ID then
    { spirit with toGlobalObject := spirit.toGlobalObject._InvalidateObject }
  else
    match G.GetSpiritsScript.tables id with
    | none => { spirit with toGlobalObject := spirit.toGlobalObject._InvalidateObject }
    | some table =>
      let loaded : GlobalSpirit :=
        { toGlobalObject := spirit.toGlobalObject._LoadObjectData table }
      if G.GetSpiritsScript.error_detected then
        { loaded with toGlobalObject := loaded.toGlobalObject._InvalidateObject }
      else loaded

end GlobalSpirit

/-- What a `std::shared_ptr<GlobalObject>` made by `GlobalCreateNewObject`
points to: an object of one of the four classes. -/
inductive NewObject where
  | item (object : GlobalItem)
  | weapon (object : GlobalWeapon)
  | armor (object : GlobalArmor)
  | spirit (object : GlobalSpirit)
deriving DecidableEq, Repr

/-- The `GlobalObject` part of the object pointed to. -/
def NewObject.toGlobalObject : NewObject → GlobalObject
  | .item object => object.toGlobalObject
  | .weapon object => object.toGlobalObject
  | .armor object => object.toGlobalObject
  | .spirit object => object.toGlobalObject

/-- `new_object->GetID()` -/
def NewObject.GetID (object : NewObject) : Nat :=
  object.toGlobalObject.GetID

/-- `new_object->IsValid()` -/
def NewObject.IsValid (object : NewObject) : Bool :=
  object.toGlobalObject.IsValid

/-- `GlobalCreateNewObject`, its first statement: the chain of id ranges that
picks the class to construct (global_utils.cpp, lines 146-158); `none` is
`new_object` left at `nullptr` in the last `else`. -/
def constructNewObject (K : GlobalConstants) (G : GameGlobal) (id count : Nat) :
    Option NewObject :=
  if (id > 0 ∧ id ≤ K.MAX_ITEM_ID) ∨ (id > K.MAX_SPIRIT_ID ∧ id ≤ K.MAX_KEY_ITEM_ID) then
    some (NewObject.item (GlobalItem.create K G id count))
  else if id > K.MAX_ITEM_ID ∧ id ≤ K.MAX_WEAPON_ID then
    some (NewObject.weapon (GlobalWeapon.create K G id count))
  else if id > K.MAX_WEAPON_ID ∧ id ≤ K.MAX_LEG_ARMOR_ID then
    some (NewObject.armor (GlobalArmor.create K G id count))
  else if id > K.MAX_LEG_ARMOR_ID ∧ id ≤ K.MAX_SPIRIT_ID then
    some (NewObject.spirit (GlobalSpirit.create K G id count))
  else
    none

/-- `std::shared_ptr<GlobalObject> GlobalCreateNewObject(uint32_t id,
uint32_t count)`: the object of `constructNewObject`, replaced by `nullptr`
(`none`) if one was created but its id is 0. -/
def GlobalCreateNewObject (K : GlobalConstants) (G : GameGlobal) (id count : Nat) :
    Option NewObject :=
  match constructNewObject K G id count with
  | none => none
  | some new_object => if new_object.GetID = 0 then none else some new_object

/-- Constants in the order the embedded code relies on; the values themselves
are an example. -/
def exampleConstants : GlobalConstants :=
  { MAX_ITEM_ID := 10000
    MAX_WEAPON_ID := 20000
    MAX_HEAD_ARMOR_ID := 30000
    MAX_TORSO_ARMOR_ID := 40000
    MAX_ARM_ARMOR_ID := 50000
    MAX_LEG_ARMOR_ID := 60000
    MAX_SPIRIT_ID := 70000
    MAX_KEY_ITEM_ID := 80000
    GLOBAL_TARGET_INVALID := -1
    GLOBAL_STATUS_INVALID := -1
    GLOBAL_STATUS_TOTAL := 16
    GLOBAL_INTENSITY_INVALID := -5
    GLOBAL_INTENSITY_NEUTRAL := 0
    GLOBAL_INTENSITY_TOTAL := 5 }

/-- An object table with nothing in it but the given `slots` value and the
given sub-tables. -/
def exampleTable (slots : Nat) (trade_conditions : Option (ScriptTable Nat))
    (status_effects : Option (ScriptTable Int)) : ObjectTable :=
  { name := "example"
    description := ""
    standard_price := 10
    trade_conditions := trade_conditions
    icon := "icon.png"
    icon_loads := true
    key_item := none
    status_effects := status_effects
    equipment_skills := none
    target_type := 0
    warmup_time := 0
    cooldown_time := 0
    physical_attack := 0
    magical_attack := 0
    physical_defense := 0
    magical_defense := 0
    usable_by := 0
    slots := slots
    battle_ammo_animation_file := "" }

/-- A script in which every id has the table `exampleTable 9 none none` and no
error is detected. -/
def exampleScript : ReadScriptDescriptor :=
  { tables := fun _ => some (exampleTable 9 none none)
    error_detected := false }

/-- A script with no table at all. -/
def emptyScript : ReadScriptDescriptor :=
  { tables := fun _ => none
    error_detected := false }

/-- A trade table with the keys 3, 0 and 7 in this order, each key `k` holding
the quantity `k + 10`. -/
def exampleTradeTable : ScriptTable Nat :=
  { keys := [3, 0, 7], ReadInt := fun key => (key : Int) + 10 }

/-- A status table whose one key, the status 0, holds the intensity -1, one
step below `GLOBAL_INTENSITY_NEUTRAL` of `exampleConstants`. -/
def negativeIntensityTable : ScriptTable Int :=
  { keys := [0], ReadInt := fun _ => -1 }

/-- A status table with the keys 3, 1, 2 in this order, each status `k` holding
the intensity `k`. -/
def exampleStatusTable : ScriptTable Int :=
  { keys := [3, 1, 2], ReadInt := fun key => key }

/-- The table `exampleStatusTable` with its keys enumerated in another order. -/
def exampleStatusTableReordered : ScriptTable Int :=
  { keys := [2, 3, 1], ReadInt := fun key => key }

/-- A manager whose scripts all are `exampleScript`, but for the items script,
which is empty. -/
def exampleGlobal : GameGlobal :=
  { GetItemsScript := emptyScript
    GetWeaponsScript := exampleScript
    GetHeadArmorScript := exampleScript
    GetTorsoArmorScript := exampleScript
    GetArmArmorScript := exampleScript
    GetLegArmorScript := exampleScript
    GetSpiritsScript := exampleScript }

/-- An armor made for the id 35000, in the torso range of `exampleConstants`. -/
def exampleArmor : GlobalArmor :=
  GlobalArmor.create exampleConstants exampleGlobal 35000 1

end vt_global

namespace vt_audio

/-! ## The sample source and one span request -/

theorem AudioInput.Read_fst (input : AudioInput) (count : Nat) :
    (input.Read count).1 = (input.data.drop input.position).take count := rfl

theorem AudioInput.Read_length (input : AudioInput) (count : Nat) :
    (input.Read count).1.length = min count (input.TotalSamples - input.position) := by
  simp [AudioInput.Read, AudioInput.TotalSamples]

namespace AudioStream

theorem requestSpan_fst (st : AudioStream) (count : Nat) :
    (st.requestSpan count).1 = (st._audio_input.data.drop st._read_position).take count := rfl

theorem requestSpan_length (st : AudioStream) (count : Nat) :
    (st.requestSpan count).1.length
      = min count (st._audio_input.TotalSamples - st._read_position) := by
  simp [requestSpan_fst, AudioInput.TotalSamples]

theorem requestSpan_length_le (st : AudioStream) (count : Nat) :
    (st.requestSpan count).1.length ≤ count := by
  rw [requestSpan_length]; exact Nat.min_le_left _ _

@[simp]
theorem requestSpan_looping (st : AudioStream) (count : Nat) :
    (st.requestSpan count).2._looping = st._looping := rfl

@[simp]
theorem requestSpan_loop_start (st : AudioStream) (count : Nat) :
    (st.requestSpan count).2._loop_start_position = st._loop_start_position := rfl

@[simp]
theorem requestSpan_loop_end (st : AudioStream) (count : Nat) :
    (st.requestSpan count).2._loop_end_position = st._loop_end_position := rfl

@[simp]
theorem requestSpan_end_of_stream (st : AudioStream) (count : Nat) :
    (st.requestSpan count).2._end_of_stream = st._end_of_stream := rfl

@[simp]
theorem requestSpan_data (st : AudioStream) (count : Nat) :
    (st.requestSpan count).2._audio_input.data = st._audio_input.data := rfl

theorem requestSpan_read_position (st : AudioStream) (count : Nat) :
    (st.requestSpan count).2._read_position
      = st._read_position + (st.requestSpan count).1.length := rfl

@[simp]
theorem wrapToLoopStart_looping (st : AudioStream) :
    st.wrapToLoopStart._looping = st._looping := rfl

@[simp]
theorem wrapToLoopStart_loop_start (st : AudioStream) :
    st.wrapToLoopStart._loop_start_position = st._loop_start_position := rfl

@[simp]
theorem wrapToLoopStart_loop_end (st : AudioStream) :
    st.wrapToLoopStart._loop_end_position = st._loop_end_position := rfl

@[simp]
theorem wrapToLoopStart_end_of_stream (st : AudioStream) :
    st.wrapToLoopStart._end_of_stream = st._end_of_stream := rfl

@[simp]
theorem wrapToLoopStart_read_position (st : AudioStream) :
    st.wrapToLoopStart._read_position = st._loop_start_position := rfl

@[simp]
theorem wrapToLoopStart_data (st : AudioStream) :
    st.wrapToLoopStart._audio_input.data = st._audio_input.data := rfl

/-! ## The wrap loop -/

theorem fillWrapped_zero_remaining (fuel : Nat) (acc : FillResult) :
    fillWrapped fuel acc 0 = acc := by
  cases fuel <;> simp [fillWrapped]

/-- What the wrap loop never touches: the two flags, the loop window and the
decoded data of the source. -/
theorem fillWrapped_frame (fuel : Nat) (acc : FillResult) (remaining : Nat) :
    (fillWrapped fuel acc remaining).stream._looping = acc.stream._looping
    ∧ (fillWrapped fuel acc remaining).stream._end_of_stream = acc.stream._end_of_stream
    ∧ (fillWrapped fuel acc remaining).stream._loop_start_position
        = acc.stream._loop_start_position
    ∧ (fillWrapped fuel acc remaining).stream._loop_end_position
        = acc.stream._loop_end_position
    ∧ (fillWrapped fuel acc remaining).stream._audio_input.data
        = acc.stream._audio_input.data := by
  induction fuel generalizing acc remaining with
  | zero => simp [fillWrapped]
  | succ fuel ih =>
    unfold fillWrapped
    by_cases hr : remaining = 0
    · simp [hr]
    · simp only [hr, if_false]
      split
      · simp
      · have h := ih
          { stream := (acc.stream.wrapToLoopStart.requestSpan
              (min remaining acc.stream.wrapToLoopStart.samplesToLoopEnd)).2
            buffer := acc.buffer ++ (acc.stream.wrapToLoopStart.requestSpan
              (min remaining acc.stream.wrapToLoopStart.samplesToLoopEnd)).1
            samples_read := acc.samples_read + (acc.stream.wrapToLoopStart.requestSpan
              (min remaining acc.stream.wrapToLoopStart.samplesToLoopEnd)).1.length
            wraps := acc.wraps + 1 }
          (remaining - (acc.stream.wrapToLoopStart.requestSpan
              (min remaining acc.stream.wrapToLoopStart.samplesToLoopEnd)).1.length)
        simpa using h

/-- The wrap loop writes no more than what remains of the request, and the
count it returns is the number of samples in the buffer. -/
theorem fillWrapped_count (fuel : Nat) (acc : FillResult) (remaining : Nat) :
    (fillWrapped fuel acc remaining).samples_read ≤ acc.samples_read + remaining
    ∧ acc.samples_read ≤ (fillWrapped fuel acc remaining).samples_read
    ∧ (acc.buffer.length = acc.samples_read →
        (fillWrapped fuel acc remaining).buffer.length
          = (fillWrapped fuel acc remaining).samples_read) := by
  induction fuel generalizing acc remaining with
  | zero => simp [fillWrapped]
  | succ fuel ih =>
    unfold fillWrapped
    by_cases hr : remaining = 0
    · simp [hr]
    · simp only [hr, if_false]
      have hle := requestSpan_length_le acc.stream.wrapToLoopStart
        (min remaining acc.stream.wrapToLoopStart.samplesToLoopEnd)
      have hmin : min remaining acc.stream.wrapToLoopStart.samplesToLoopEnd ≤ remaining :=
        Nat.min_le_left _ _
      split
      · rename_i h0
        simp only [h0]
        refine ⟨by omega, by omega, fun h => ?_⟩
        have := List.length_eq_zero.mp h0
        simp [this, h]
      · obtain ⟨h1, h2, h3⟩ := ih
          { stream := (acc.stream.wrapToLoopStart.requestSpan
              (min remaining acc.stream.wrapToLoopStart.samplesToLoopEnd)).2
            buffer := acc.buffer ++ (acc.stream.wrapToLoopStart.requestSpan
              (min remaining acc.stream.wrapToLoopStart.samplesToLoopEnd)).1
            samples_read := acc.samples_read + (acc.stream.wrapToLoopStart.requestSpan
              (min remaining acc.stream.wrapToLoopStart.samplesToLoopEnd)).1.length
            wraps := acc.wraps + 1 }
          (remaining - (acc.stream.wrapToLoopStart.requestSpan
              (min remaining acc.stream.wrapToLoopStart.samplesToLoopEnd)).1.length)
        simp only at h1 h2 h3
        refine ⟨by omega, by omega, fun h => h3 ?_⟩
        simp [h]

/-- Adequacy of the round bound: once the fuel covers what remains of the
request, more fuel changes nothing. -/
theorem fillWrapped_fuel (fuel : Nat) (acc : FillResult) (remaining : Nat)
    (h : remaining ≤ fuel) :
    fillWrapped fuel acc remaining = fillWrapped remaining acc remaining := by
  induction fuel using Nat.strong_induction_on generalizing acc remaining with
  | _ fuel ih =>
    cases fuel with
    | zero =>
      have : remaining = 0 := by omega
      subst this; rfl
    | succ fuel =>
      cases remaining with
      | zero => simp [fillWrapped]
      | succ r =>
        simp only [fillWrapped, Nat.succ_ne_zero, if_false]
        split
        · rfl
        · rename_i hne
          have hpos : 0 < (acc.stream.wrapToLoopStart.requestSpan
              (min (r + 1) acc.stream.wrapToLoopStart.samplesToLoopEnd)).1.length :=
            Nat.pos_of_ne_zero hne
          rw [ih fuel (Nat.lt_succ_self _) _ _ (by omega),
            ih r (by omega) _ _ (by omega)]

/-- With a loop window that is empty or reversed the wrap loop stops after one
round: the span from the loop start up to the loop end holds no sample. -/
theorem fillWrapped_degenerate (fuel : Nat) (acc : FillResult) (remaining : Nat)
    (hfuel : 1 ≤ fuel)
    (hwin : acc.stream._loop_end_position ≤ acc.stream._loop_start_position) :
    fillWrapped fuel acc remaining = fillWrapped 1 acc remaining
    ∧ (fillWrapped fuel acc remaining).wraps ≤ acc.wraps + 1 := by
  obtain ⟨k, rfl⟩ : ∃ k, fuel = k + 1 := ⟨fuel - 1, by omega⟩
  have hspan : acc.stream.wrapToLoopStart.samplesToLoopEnd = 0 := by
    simp only [samplesToLoopEnd, wrapToLoopStart_read_position, wrapToLoopStart_loop_end]
    rw [if_neg (by omega)]
  have hlen : (acc.stream.wrapToLoopStart.requestSpan
      (min remaining acc.stream.wrapToLoopStart.samplesToLoopEnd)).1.length = 0 := by
    rw [hspan, requestSpan_length]; simp
  by_cases hr : remaining = 0
  · simp [fillWrapped, hr]
  · simp [fillWrapped, hr, hlen]

/-- With a well-formed loop window inside the source the wrap loop supplies all
that remains of the request. -/
theorem fillWrapped_full (fuel : Nat) (acc : FillResult) (remaining : Nat)
    (hfuel : remaining ≤ fuel)
    (hwin : acc.stream._loop_start_position < acc.stream._loop_end_position)
    (hlen : acc.stream._loop_end_position ≤ acc.stream._audio_input.TotalSamples) :
    (fillWrapped fuel acc remaining).samples_read = acc.samples_read + remaining := by
  induction fuel generalizing acc remaining with
  | zero =>
    have : remaining = 0 := by omega
    subst this; rfl
  | succ fuel ih =>
    by_cases hr : remaining = 0
    · subst hr; simp [fillWrapped]
    · have hspan : acc.stream.wrapToLoopStart.samplesToLoopEnd
          = acc.stream._loop_end_position - acc.stream._loop_start_position := by
        simp only [samplesToLoopEnd, wrapToLoopStart_read_position, wrapToLoopStart_loop_end]
        rw [if_pos hwin]
      have hlen1 : (acc.stream.wrapToLoopStart.requestSpan
          (min remaining acc.stream.wrapToLoopStart.samplesToLoopEnd)).1.length
            = min remaining (acc.stream._loop_end_position - acc.stream._loop_start_position) := by
        rw [requestSpan_length, hspan]
        simp only [AudioInput.TotalSamples, wrapToLoopStart_data,
          wrapToLoopStart_read_position]
        simp only [AudioInput.TotalSamples] at hlen
        omega
      have hne : (acc.stream.wrapToLoopStart.requestSpan
          (min remaining acc.stream.wrapToLoopStart.samplesToLoopEnd)).1.length ≠ 0 := by
        rw [hlen1]; omega
      simp only [fillWrapped, hr, hne, if_false]
      rw [ih _ _ (by omega) (by simpa using hwin)
        (by simpa [AudioInput.TotalSamples] using hlen)]
      simp only
      have := requestSpan_length_le acc.stream.wrapToLoopStart
        (min remaining acc.stream.wrapToLoopStart.samplesToLoopEnd)
      have hmin : min remaining acc.stream.wrapToLoopStart.samplesToLoopEnd ≤ remaining :=
        Nat.min_le_left _ _
      omega

/-! ## `FillBuffer` as a whole -/

theorem FillBufferFuel_zero_size (fuel : Nat) (st : AudioStream) :
    FillBufferFuel fuel st 0
      = { stream := st, buffer := [], samples_read := 0, wraps := 0 } := by
  simp [FillBufferFuel]

theorem FillBufferFuel_of_looping (fuel : Nat) (st : AudioStream) (size : Nat)
    (hs : size ≠ 0) (hloop : st._looping = true) :
    FillBufferFuel fuel st size
      = fillWrapped fuel
          { stream := (st.requestSpan (min size st.samplesToLoopEnd)).2
            buffer := (st.requestSpan (min size st.samplesToLoopEnd)).1
            samples_read := (st.requestSpan (min size st.samplesToLoopEnd)).1.length
            wraps := 0 }
          (size - (st.requestSpan (min size st.samplesToLoopEnd)).1.length) := by
  simp [FillBufferFuel, hs, hloop]

theorem FillBufferFuel_of_not_looping (fuel : Nat) (st : AudioStream) (size : Nat)
    (hs : size ≠ 0) (hloop : st._looping = false) :
    FillBufferFuel fuel st size
      = { stream :=
            { (st.requestSpan size).2 with
              _end_of_stream :=
                if (st.requestSpan size).1.length < size then true
                else (st.requestSpan size).2._end_of_stream }
          buffer := (st.requestSpan size).1
          samples_read := (st.requestSpan size).1.length
          wraps := 0 } := by
  simp [FillBufferFuel, hs, hloop]

theorem FillBufferFuel_eq_FillBuffer (fuel : Nat) (st : AudioStream) (size : Nat)
    (h : size ≤ fuel) : FillBufferFuel fuel st size = st.FillBuffer size := by
  unfold FillBuffer
  by_cases hs : size = 0
  · subst hs; simp [FillBufferFuel_zero_size]
  · cases hloop : st._looping with
    | true =>
      have hle := requestSpan_length_le st (min size st.samplesToLoopEnd)
      rw [FillBufferFuel_of_looping fuel st size hs hloop,
        FillBufferFuel_of_looping size st size hs hloop,
        fillWrapped_fuel fuel _ _ (by omega), fillWrapped_fuel size _ _ (by omega)]
    | false =>
      rw [FillBufferFuel_of_not_looping fuel st size hs hloop,
        FillBufferFuel_of_not_looping size st size hs hloop]

theorem FillBuffer_looping (st : AudioStream) (size : Nat) :
    (st.FillBuffer size).stream._looping = st._looping := by
  unfold FillBuffer
  by_cases hs : size = 0
  · subst hs; simp [FillBufferFuel_zero_size]
  · cases hloop : st._looping with
    | true =>
      rw [FillBufferFuel_of_looping size st size hs hloop, (fillWrapped_frame _ _ _).1]
      simpa using hloop
    | false =>
      rw [FillBufferFuel_of_not_looping size st size hs hloop]
      simpa using hloop

theorem FillBuffer_end_of_stream_of_looping (st : AudioStream) (size : Nat)
    (hloop : st._looping = true) :
    (st.FillBuffer size).stream._end_of_stream = st._end_of_stream := by
  unfold FillBuffer
  by_cases hs : size = 0
  · subst hs; simp [FillBufferFuel_zero_size]
  · rw [FillBufferFuel_of_looping size st size hs hloop, (fillWrapped_frame _ _ _).2.1]
    rfl

theorem FillBuffer_samples_read_le (st : AudioStream) (size : Nat) :
    (st.FillBuffer size).samples_read ≤ size := by
  unfold FillBuffer
  by_cases hs : size = 0
  · subst hs; simp [FillBufferFuel_zero_size]
  · cases hloop : st._looping with
    | true =>
      rw [FillBufferFuel_of_looping size st size hs hloop]
      have h1 := (fillWrapped_count size
        { stream := (st.requestSpan (min size st.samplesToLoopEnd)).2
          buffer := (st.requestSpan (min size st.samplesToLoopEnd)).1
          samples_read := (st.requestSpan (min size st.samplesToLoopEnd)).1.length
          wraps := 0 }
        (size - (st.requestSpan (min size st.samplesToLoopEnd)).1.length)).1
      have h2 := requestSpan_length_le st (min size st.samplesToLoopEnd)
      have h3 : min size st.samplesToLoopEnd ≤ size := Nat.min_le_left _ _
      simp only at h1
      omega
    | false =>
      rw [FillBufferFuel_of_not_looping size st size hs hloop]
      exact requestSpan_length_le st size

theorem FillBuffer_buffer_length (st : AudioStream) (size : Nat) :
    (st.FillBuffer size).buffer.length = (st.FillBuffer size).samples_read := by
  unfold FillBuffer
  by_cases hs : size = 0
  · subst hs; simp [FillBufferFuel_zero_size]
  · cases hloop : st._looping with
    | true =>
      rw [FillBufferFuel_of_looping size st size hs hloop]
      exact (fillWrapped_count _ _ _).2.2 rfl
    | false =>
      rw [FillBufferFuel_of_not_looping size st size hs hloop]

theorem Seek_looping (st : AudioStream) (sample : Nat) :
    (st.Seek sample)._looping = st._looping := rfl

theorem Seek_end_of_stream_false (st : AudioStream) (sample : Nat)
    (h : st._end_of_stream = false) : (st.Seek sample)._end_of_stream = false := by
  simp [Seek, h]

/-- One round of the wrap loop that supplies everything that remains: the
stream wraps once, the span from the loop start is appended and the position
ends right behind it. -/
theorem fillWrapped_one_round (fuel : Nat) (acc : FillResult) (remaining : Nat)
    (hr : remaining ≠ 0)
    (hfit : acc.stream._loop_start_position + remaining ≤ acc.stream._loop_end_position)
    (hlen : acc.stream._loop_end_position ≤ acc.stream._audio_input.TotalSamples) :
    fillWrapped (fuel + 1) acc remaining
      = { stream := (acc.stream.wrapToLoopStart.requestSpan remaining).2
          buffer := acc.buffer
            ++ (acc.stream._audio_input.data.drop acc.stream._loop_start_position).take remaining
          samples_read := acc.samples_read + remaining
          wraps := acc.wraps + 1 } := by
  have hspan : min remaining acc.stream.wrapToLoopStart.samplesToLoopEnd = remaining := by
    simp only [samplesToLoopEnd, wrapToLoopStart_read_position, wrapToLoopStart_loop_end]
    rw [if_pos (by omega)]
    omega
  have hlen1 : (acc.stream.wrapToLoopStart.requestSpan remaining).1.length = remaining := by
    rw [requestSpan_length]
    simp only [AudioInput.TotalSamples, wrapToLoopStart_data, wrapToLoopStart_read_position]
    simp only [AudioInput.TotalSamples] at hlen
    omega
  simp only [fillWrapped, hr, if_false, hspan, hlen1, Nat.sub_self,
    fillWrapped_zero_remaining]
  rfl

/-- The wrap loop only appends to the buffer. -/
theorem fillWrapped_buffer_prefix (fuel : Nat) (acc : FillResult) (remaining : Nat) :
    acc.buffer <+: (fillWrapped fuel acc remaining).buffer := by
  induction fuel generalizing acc remaining with
  | zero => exact List.prefix_refl _
  | succ fuel ih =>
    unfold fillWrapped
    by_cases hr : remaining = 0
    · simp [hr]
    · simp only [hr, if_false]
      split
      · exact List.prefix_append _ _
      · exact List.IsPrefix.trans (List.prefix_append _ _) (ih ⟨_, _, _, _⟩ _)

/-- A fill without looping is one request of `size` samples: what it returns
and where it leaves the stream. -/
theorem FillBuffer_of_not_looping (st : AudioStream) (size : Nat)
    (hloop : st._looping = false) :
    (st.FillBuffer size).buffer = (st._audio_input.data.drop st._read_position).take size
    ∧ (st.FillBuffer size).samples_read
        = min size (st._audio_input.TotalSamples - st._read_position)
    ∧ (st.FillBuffer size).stream._read_position
        = st._read_position + min size (st._audio_input.TotalSamples - st._read_position)
    ∧ (st.FillBuffer size).stream._end_of_stream
        = (if min size (st._audio_input.TotalSamples - st._read_position) < size then true
            else st._end_of_stream)
    ∧ (st.FillBuffer size).stream._audio_input.data = st._audio_input.data := by
  unfold FillBuffer
  by_cases hs : size = 0
  · subst hs; simp [FillBufferFuel_zero_size]
  · rw [FillBufferFuel_of_not_looping size st size hs hloop]
    refine ⟨rfl, requestSpan_length st size, ?_, ?_, rfl⟩
    · simp only [requestSpan_read_position, requestSpan_length]
    · simp only [requestSpan_length, requestSpan_end_of_stream]

/-- The first span of a fill: the source samples from the read position on, up
to the loop end at the latest when the stream loops, open the buffer. -/
theorem FillBuffer_first_span (st : AudioStream) (size : Nat) :
    (st._audio_input.data.drop st._read_position).take
        (if st._looping then min size st.samplesToLoopEnd else size)
      <+: (st.FillBuffer size).buffer := by
  unfold FillBuffer
  by_cases hs : size = 0
  · subst hs; simp [FillBufferFuel_zero_size]
  · cases hloop : st._looping with
    | true =>
      rw [FillBufferFuel_of_looping size st size hs hloop, if_pos rfl]
      exact fillWrapped_buffer_prefix size
        { stream := (st.requestSpan (min size st.samplesToLoopEnd)).2
          buffer := (st.requestSpan (min size st.samplesToLoopEnd)).1
          samples_read := (st.requestSpan (min size st.samplesToLoopEnd)).1.length
          wraps := 0 } _
    | false =>
      rw [FillBufferFuel_of_not_looping size st size hs hloop]
      exact List.prefix_refl _

/-- A buffer that opens with a non-empty span of the source from `first` on has
the source sample at `first` as its first sample. -/
theorem head?_of_span_prefix (data buffer : List Sample) (first count : Nat)
    (hcount : 0 < count) (hfirst : first < data.length)
    (h : (data.drop first).take count <+: buffer) :
    buffer.head? = data[first]? := by
  obtain ⟨rest, rfl⟩ := h
  have hne : (data.drop first).take count ≠ [] := by
    intro h0
    have := congrArg List.length h0
    simp at this
    omega
  rw [List.head?_append_of_ne_nil _ hne, List.head?_take, if_neg (by omega),
    List.head?_drop]

end AudioStream

/-! ## The claims -/

/-- C1. In every reachable `AudioStream` state, looping enabled implies that
`end_of_stream` is false (`LoopingInvariant`): the constructor establishes
this, each of `FillBuffer`, `Seek`, `SetLooping`, `SetLoopStart` and
`SetLoopEnd` preserves it from whatever state it holds in, and so it holds in
every state those operations can reach. -/
theorem looping_never_end_of_stream :
    (∀ (input : AudioInput) (loop : Bool), LoopingInvariant (AudioStream.create input loop))
    ∧ (∀ (st : AudioStream) (size : Nat),
        LoopingInvariant st → LoopingInvariant (st.FillBuffer size).stream)
    ∧ (∀ (st : AudioStream) (sample : Nat), LoopingInvariant st → LoopingInvariant (st.Seek sample))
    ∧ (∀ (st : AudioStream) (loop : Bool),
        LoopingInvariant st → LoopingInvariant (st.SetLooping loop))
    ∧ (∀ (st : AudioStream) (sample : Nat),
        LoopingInvariant st → LoopingInvariant (st.SetLoopStart sample))
    ∧ (∀ (st : AudioStream) (sample : Nat),
        LoopingInvariant st → LoopingInvariant (st.SetLoopEnd sample))
    ∧ (∀ st : AudioStream, Reachable st → LoopingInvariant st) := by
  have hcreate : ∀ (input : AudioInput) (loop : Bool),
      LoopingInvariant (AudioStream.create input loop) := fun _ _ _ => rfl
  have hfill : ∀ (st : AudioStream) (size : Nat),
      LoopingInvariant st → LoopingInvariant (st.FillBuffer size).stream := by
    intro st size ih hloop
    rw [AudioStream.FillBuffer_looping] at hloop
    rw [AudioStream.FillBuffer_end_of_stream_of_looping st size hloop]
    exact ih hloop
  have hseek : ∀ (st : AudioStream) (sample : Nat),
      LoopingInvariant st → LoopingInvariant (st.Seek sample) :=
    fun st sample ih hloop => AudioStream.Seek_end_of_stream_false st sample (ih hloop)
  have hset : ∀ (st : AudioStream) (loop : Bool),
      LoopingInvariant st → LoopingInvariant (st.SetLooping loop) := by
    intro st loop _ hloop
    cases loop with
    | true => rfl
    | false => cases hloop
  have hstart : ∀ (st : AudioStream) (sample : Nat),
      LoopingInvariant st → LoopingInvariant (st.SetLoopStart sample) := fun _ _ ih => ih
  have hend : ∀ (st : AudioStream) (sample : Nat),
      LoopingInvariant st → LoopingInvariant (st.SetLoopEnd sample) := fun _ _ ih => ih
  refine ⟨hcreate, hfill, hseek, hset, hstart, hend, ?_⟩
  intro st h
  induction h with
  | create input loop => exact hcreate input loop
  | FillBuffer size _ ih => exact hfill _ size ih
  | Seek sample _ ih => exact hseek _ sample ih
  | SetLooping loop _ ih => exact hset _ loop ih
  | SetLoopStart sample _ ih => exact hstart _ sample ih
  | SetLoopEnd sample _ ih => exact hend _ sample ih

/-- Witness for C1: a stream that ran dry without looping (end of stream set)
and is then switched to looping is reachable, loops, and has the flag clear. -/
theorem looping_never_end_of_stream_witness :
    ((AudioStream.create { data := [7, 8, 9], position := 0 } false).FillBuffer
        5).stream._end_of_stream = true
    ∧ (((AudioStream.create { data := [7, 8, 9], position := 0 } false).FillBuffer
        5).stream.SetLooping true)._looping = true
    ∧ (((AudioStream.create { data := [7, 8, 9], position := 0 } false).FillBuffer
        5).stream.SetLooping true)._end_of_stream = false :=
  ⟨by decide, rfl,
    looping_never_end_of_stream.2.2.2.2.2.2 _
      (Reachable.SetLooping true (Reachable.FillBuffer 5 (Reachable.create _ false))) rfl⟩

/-- C2. For a looping stream with `loopStart < loopEnd ≤ source length`, a read
position inside `[loopStart, loopEnd)` and a size whose span crosses `loopEnd`
exactly once, `FillBuffer` writes the source samples `[readPosition, loopEnd)`
followed by `[loopStart, loopStart + size - (loopEnd - readPosition))`, returns
`size`, leaves the read position at `loopStart + size - (loopEnd - readPosition)`
and leaves `end_of_stream` false, as it is in every looping stream before the
call (`heos`).  Of the read position only `readPosition < loopEnd` is used, so
a position before the loop start is covered as well. -/
theorem FillBuffer_wraps_once (st : AudioStream) (size : Nat)
    (hloop : st._looping = true) (heos : st._end_of_stream = false)
    (hwin : st._loop_start_position < st._loop_end_position)
    (hlen : st._loop_end_position ≤ st._audio_input.TotalSamples)
    (hhi : st._read_position < st._loop_end_position)
    (hcross : st._loop_end_position - st._read_position < size)
    (honce : size < (st._loop_end_position - st._read_position)
      + (st._loop_end_position - st._loop_start_position)) :
    (st.FillBuffer size).buffer
        = sourceSpan st._audio_input st._read_position st._loop_end_position
          ++ sourceSpan st._audio_input st._loop_start_position
              (st._loop_start_position + size - (st._loop_end_position - st._read_position))
    ∧ (st.FillBuffer size).samples_read = size
    ∧ (st.FillBuffer size).stream._read_position
        = st._loop_start_position + size - (st._loop_end_position - st._read_position)
    ∧ (st.FillBuffer size).stream._end_of_stream = false
    ∧ (st.FillBuffer size).wraps = 1 := by
  have hs : size ≠ 0 := by omega
  have hspan : min size st.samplesToLoopEnd = st._loop_end_position - st._read_position := by
    simp only [AudioStream.samplesToLoopEnd]
    rw [if_pos hhi]
    omega
  have hlen1 : (st.requestSpan (st._loop_end_position - st._read_position)).1.length
      = st._loop_end_position - st._read_position := by
    rw [AudioStream.requestSpan_length]
    omega
  obtain ⟨k, hk⟩ : ∃ k, size = k + 1 := ⟨size - 1, by omega⟩
  have hrun : st.FillBuffer size
      = AudioStream.fillWrapped (k + 1)
          { stream := (st.requestSpan (st._loop_end_position - st._read_position)).2
            buffer := (st.requestSpan (st._loop_end_position - st._read_position)).1
            samples_read := st._loop_end_position - st._read_position
            wraps := 0 }
          (size - (st._loop_end_position - st._read_position)) := by
    unfold AudioStream.FillBuffer
    rw [AudioStream.FillBufferFuel_of_looping size st size hs hloop, hspan, hlen1, ← hk]
  rw [hrun, AudioStream.fillWrapped_one_round k _ _ (by omega)
    (by simp only [AudioStream.requestSpan_loop_start, AudioStream.requestSpan_loop_end]; omega)
    (by simpa [AudioInput.TotalSamples] using hlen)]
  refine ⟨?_, ?_, ?_, ?_, ?_⟩
  · simp only [AudioStream.requestSpan_fst, AudioStream.requestSpan_data,
      AudioStream.requestSpan_loop_start, sourceSpan]
    congr 2
    omega
  · simp only; omega
  · simp only [AudioStream.requestSpan_read_position,
      AudioStream.wrapToLoopStart_read_position, AudioStream.requestSpan_loop_start]
    rw [AudioStream.requestSpan_length]
    simp only [AudioInput.TotalSamples, AudioStream.wrapToLoopStart_data,
      AudioStream.wrapToLoopStart_read_position, AudioStream.requestSpan_data,
      AudioStream.requestSpan_loop_start]
    simp only [AudioInput.TotalSamples] at hlen
    omega
  · simpa using heos
  · rfl

/-- Witness for C2, the example of the spec: loop window `[100, 200)`, read
position 190 and size 30 give `[190, 200)` then `[100, 120)`, 30 samples, and
the read position 120. -/
theorem FillBuffer_wraps_once_witness :
    (wrapExample.FillBuffer 30).buffer
        = sourceSpan rampInput 190 200 ++ sourceSpan rampInput 100 120
    ∧ (wrapExample.FillBuffer 30).samples_read = 30
    ∧ (wrapExample.FillBuffer 30).stream._read_position = 120
    ∧ (wrapExample.FillBuffer 30).stream._end_of_stream = false
    ∧ (wrapExample.FillBuffer 30).wraps = 1 :=
  FillBuffer_wraps_once wrapExample 30 rfl rfl (by decide)
    (by simp [wrapExample, rampInput, AudioInput.TotalSamples]) (by decide) (by decide)
    (by decide)

/-- C3. For a looping stream with a well-formed loop window
(`loopStart < loopEnd ≤ source length`, read position below `loopEnd`),
`FillBuffer(buffer, size)` returns exactly `size` for every size, with that many
samples in the buffer, and leaves `end_of_stream` false, as it is in every
looping stream before the call (`heos`).  The bound on the read position is not
used: a stream at or past the loop end wraps first and is filled all the
same. -/
theorem FillBuffer_looping_fills_size (st : AudioStream) (size : Nat)
    (hloop : st._looping = true) (heos : st._end_of_stream = false)
    (hwin : st._loop_start_position < st._loop_end_position)
    (hlen : st._loop_end_position ≤ st._audio_input.TotalSamples) :
    (st.FillBuffer size).samples_read = size
    ∧ (st.FillBuffer size).buffer.length = size
    ∧ (st.FillBuffer size).stream._end_of_stream = false := by
  have hcount : (st.FillBuffer size).samples_read = size := by
    unfold AudioStream.FillBuffer
    by_cases hs : size = 0
    · subst hs; simp [AudioStream.FillBufferFuel_zero_size]
    · have hle := AudioStream.requestSpan_length_le st (min size st.samplesToLoopEnd)
      have hmin : min size st.samplesToLoopEnd ≤ size := Nat.min_le_left _ _
      rw [AudioStream.FillBufferFuel_of_looping size st size hs hloop,
        AudioStream.fillWrapped_full size _ _ (by omega) (by simpa using hwin)
          (by simpa [AudioInput.TotalSamples] using hlen)]
      simp only
      omega
  refine ⟨hcount, ?_, ?_⟩
  · rw [AudioStream.FillBuffer_buffer_length, hcount]
  · rw [AudioStream.FillBuffer_end_of_stream_of_looping st size hloop, heos]

/-- Witness for C3: 1000 samples asked of the loop window `[100, 200)`, ten
times its width, are all delivered. -/
theorem FillBuffer_looping_fills_size_witness :
    (wrapExample.FillBuffer 1000).samples_read = 1000
    ∧ (wrapExample.FillBuffer 1000).buffer.length = 1000
    ∧ (wrapExample.FillBuffer 1000).stream._end_of_stream = false :=
  FillBuffer_looping_fills_size wrapExample 1000 rfl rfl (by decide)
    (by simp [wrapExample, rampInput, AudioInput.TotalSamples])

/-- C4. For a stream that does not loop and whose source has `k < size` samples
left from the read position, `FillBuffer(buffer, size)` returns `k`, writes just
those `k` samples (no padding), sets `end_of_stream`, and a `FillBuffer` call
that follows at once returns 0, whatever size it asks for. -/
theorem FillBuffer_exhaustion (st : AudioStream) (size : Nat)
    (hloop : st._looping = false)
    (hk : st._audio_input.TotalSamples - st._read_position < size) :
    (st.FillBuffer size).samples_read = st._audio_input.TotalSamples - st._read_position
    ∧ (st.FillBuffer size).buffer
        = sourceSpan st._audio_input st._read_position st._audio_input.TotalSamples
    ∧ (st.FillBuffer size).buffer.length = st._audio_input.TotalSamples - st._read_position
    ∧ (st.FillBuffer size).stream._end_of_stream = true
    ∧ ∀ next : Nat, ((st.FillBuffer size).stream.FillBuffer next).samples_read = 0 := by
  obtain ⟨hbuf, hcount, hpos, hflag, hdata⟩ :=
    AudioStream.FillBuffer_of_not_looping st size hloop
  have hmin : min size (st._audio_input.TotalSamples - st._read_position)
      = st._audio_input.TotalSamples - st._read_position := by omega
  have hcount1 : (st.FillBuffer size).samples_read
      = st._audio_input.TotalSamples - st._read_position := by rw [hcount, hmin]
  refine ⟨hcount1, ?_, ?_, ?_, ?_⟩
  · rw [hbuf]
    simp only [sourceSpan, AudioInput.TotalSamples] at hk ⊢
    rw [List.take_of_length_le (by simp; omega), List.take_of_length_le (by simp)]
  · rw [AudioStream.FillBuffer_buffer_length, hcount1]
  · rw [hflag, hmin, if_pos hk]
  · intro next
    have hloop1 : (st.FillBuffer size).stream._looping = false := by
      rw [AudioStream.FillBuffer_looping, hloop]
    rw [(AudioStream.FillBuffer_of_not_looping _ next hloop1).2.1, hpos, hmin]
    simp only [AudioInput.TotalSamples, hdata]
    omega

/-- Witness for C4: at position 1 of a three-sample source a request of 5
samples returns the 2 that are left and sets the flag; the next call, of any
size, returns 0. -/
theorem FillBuffer_exhaustion_witness :
    ((exhaustExample).FillBuffer 5).samples_read = 2
    ∧ ((exhaustExample).FillBuffer 5).buffer = sourceSpan exhaustExample._audio_input 1 3
    ∧ ((exhaustExample).FillBuffer 5).buffer.length = 2
    ∧ ((exhaustExample).FillBuffer 5).stream._end_of_stream = true
    ∧ ∀ next : Nat, (((exhaustExample).FillBuffer 5).stream.FillBuffer next).samples_read = 0 :=
  FillBuffer_exhaustion exhaustExample 5 rfl (by decide)

/-- C5. For a stream that does not loop and whose source has at least `size`
samples left from the read position, `FillBuffer(buffer, size)` returns `size`
and the new read position is the old one plus `size`; the buffer holds the
source samples `[readPosition, readPosition + size)` and `end_of_stream` is as
it was. -/
theorem FillBuffer_no_wrap_fill (st : AudioStream) (size : Nat)
    (hloop : st._looping = false)
    (hk : size ≤ st._audio_input.TotalSamples - st._read_position) :
    (st.FillBuffer size).samples_read = size
    ∧ (st.FillBuffer size).stream._read_position = st._read_position + size
    ∧ (st.FillBuffer size).buffer
        = sourceSpan st._audio_input st._read_position (st._read_position + size)
    ∧ (st.FillBuffer size).stream._end_of_stream = st._end_of_stream := by
  obtain ⟨hbuf, hcount, hpos, hflag, _⟩ :=
    AudioStream.FillBuffer_of_not_looping st size hloop
  have hmin : min size (st._audio_input.TotalSamples - st._read_position) = size := by omega
  refine ⟨by rw [hcount, hmin], by rw [hpos, hmin], ?_, ?_⟩
  · rw [hbuf]; simp [sourceSpan]
  · rw [hflag, hmin, if_neg (Nat.lt_irrefl _)]

/-- Witness for C5: at position 1 of a three-sample source a request of 2
samples returns 2 and moves the read position to 3. -/
theorem FillBuffer_no_wrap_fill_witness :
    (exhaustExample.FillBuffer 2).samples_read = 2
    ∧ (exhaustExample.FillBuffer 2).stream._read_position = 3
    ∧ (exhaustExample.FillBuffer 2).buffer = sourceSpan exhaustExample._audio_input 1 3
    ∧ (exhaustExample.FillBuffer 2).stream._end_of_stream = false :=
  FillBuffer_no_wrap_fill exhaustExample 2 rfl (by decide)

/-- C6. For a looping stream whose loop window is degenerate
(`loopEnd ≤ loopStart`), `FillBuffer` terminates for every size and every
source: one round of its wrap loop is all it runs, so any bound of at least
one round gives the result of the call.  It performs at most one wrap to the
loop start, returns a count of at most `size` (the number of samples in the
buffer), and leaves `end_of_stream` false, as it is in every looping stream
before the call (`heos`). -/
theorem FillBuffer_degenerate_window (st : AudioStream) (size : Nat)
    (hloop : st._looping = true) (heos : st._end_of_stream = false)
    (hwin : st._loop_end_position ≤ st._loop_start_position) :
    (∀ fuel : Nat, 1 ≤ fuel → AudioStream.FillBufferFuel fuel st size = st.FillBuffer size)
    ∧ (st.FillBuffer size).wraps ≤ 1
    ∧ (st.FillBuffer size).samples_read ≤ size
    ∧ (st.FillBuffer size).buffer.length = (st.FillBuffer size).samples_read
    ∧ (st.FillBuffer size).stream._end_of_stream = false := by
  refine ⟨?_, ?_, AudioStream.FillBuffer_samples_read_le st size,
    AudioStream.FillBuffer_buffer_length st size, ?_⟩
  · intro fuel hfuel
    unfold AudioStream.FillBuffer
    by_cases hs : size = 0
    · subst hs; simp [AudioStream.FillBufferFuel_zero_size]
    · rw [AudioStream.FillBufferFuel_of_looping fuel st size hs hloop,
        AudioStream.FillBufferFuel_of_looping size st size hs hloop,
        (AudioStream.fillWrapped_degenerate fuel _ _ hfuel (by simpa using hwin)).1,
        (AudioStream.fillWrapped_degenerate size _ _ (by omega) (by simpa using hwin)).1]
  · unfold AudioStream.FillBuffer
    by_cases hs : size = 0
    · subst hs; simp [AudioStream.FillBufferFuel_zero_size]
    · rw [AudioStream.FillBufferFuel_of_looping size st size hs hloop]
      have h := (AudioStream.fillWrapped_degenerate size
        { stream := (st.requestSpan (min size st.samplesToLoopEnd)).2
          buffer := (st.requestSpan (min size st.samplesToLoopEnd)).1
          samples_read := (st.requestSpan (min size st.samplesToLoopEnd)).1.length
          wraps := 0 }
        (size - (st.requestSpan (min size st.samplesToLoopEnd)).1.length)
        (by omega) (by simpa using hwin)).2
      simpa using h
  · rw [AudioStream.FillBuffer_end_of_stream_of_looping st size hloop, heos]

/-- Witness for C6, the example of the spec: with `loopStart = loopEnd = 50` and
the stream standing at 50, a request of 30 samples ends after one wrap. -/
theorem FillBuffer_degenerate_window_witness :
    (∀ fuel : Nat, 1 ≤ fuel →
        AudioStream.FillBufferFuel fuel zeroWidthExample 30 = zeroWidthExample.FillBuffer 30)
    ∧ (zeroWidthExample.FillBuffer 30).wraps ≤ 1
    ∧ (zeroWidthExample.FillBuffer 30).samples_read ≤ 30
    ∧ (zeroWidthExample.FillBuffer 30).buffer.length
        = (zeroWidthExample.FillBuffer 30).samples_read
    ∧ (zeroWidthExample.FillBuffer 30).stream._end_of_stream = false :=
  FillBuffer_degenerate_window zeroWidthExample 30 rfl rfl (by decide)

/-- C7. For every `AudioStream` state, `SetLooping(true)` yields a state in which
`IsLooping()` is true and `GetEndOfStream()` is false, whatever `end_of_stream`
was before the call. -/
theorem SetLooping_true_clears_end_of_stream (st : AudioStream) :
    (st.SetLooping true).IsLooping = true
    ∧ (st.SetLooping true).GetEndOfStream = false :=
  ⟨rfl, rfl⟩

/-- C8. For every `AudioStream` state, `SetLooping(false)` changes only the
looping flag: read position, `end_of_stream` (true stays true), loop start,
loop end and the input are as before; `SetLooping(true)` likewise leaves read
position, loop start, loop end and the input as they were. -/
theorem SetLooping_frame (st : AudioStream) :
    st.SetLooping false = { st with _looping := false }
    ∧ (st.SetLooping false).IsLooping = false
    ∧ (st.SetLooping false).GetCurrentSamplePosition = st.GetCurrentSamplePosition
    ∧ (st.SetLooping false).GetEndOfStream = st.GetEndOfStream
    ∧ (st.SetLooping false)._loop_start_position = st._loop_start_position
    ∧ (st.SetLooping false)._loop_end_position = st._loop_end_position
    ∧ (st.SetLooping false)._audio_input = st._audio_input
    ∧ (st.SetLooping true).GetCurrentSamplePosition = st.GetCurrentSamplePosition
    ∧ (st.SetLooping true)._loop_start_position = st._loop_start_position
    ∧ (st.SetLooping true)._loop_end_position = st._loop_end_position
    ∧ (st.SetLooping true)._audio_input = st._audio_input :=
  ⟨rfl, rfl, rfl, rfl, rfl, rfl, rfl, rfl, rfl, rfl, rfl⟩

/-- C9 as stated fails: in a looping stream with loop window `[1, 3)` over five
samples, `Seek(3)` sets the read position to 3 (below the source length 5) with
`end_of_stream` clear, yet the next `FillBuffer` finds the stream at the loop
end, wraps at once and produces the samples from the loop start, `[11, 12]`,
not from sample 3 (value 13). -/
theorem Seek_to_loop_end_counterexample :
    3 < loopEndSeekExample._audio_input.TotalSamples
    ∧ (loopEndSeekExample.Seek 3)._read_position = 3
    ∧ (loopEndSeekExample.Seek 3)._end_of_stream = false
    ∧ ((loopEndSeekExample.Seek 3).FillBuffer 2).buffer = [11, 12]
    ∧ loopEndSeekExample._audio_input.data[3]? = some 13
    ∧ ((loopEndSeekExample.Seek 3).FillBuffer 2).buffer.head?
        ≠ loopEndSeekExample._audio_input.data[3]? := by
  decide

/-- C9, amended. For every sample `s` below the source length, `Seek(s)` sets the
read position (and the source position) to `s` whatever the read position was,
whether or not the stream loops and wherever `s` lies relative to the loop
window, clears `end_of_stream`, and leaves the looping flag and the loop window
alone.  The next `FillBuffer`, of any size above 0, then produces source data
starting at the absolute sample `s` provided the stream does not loop or
`s < loopEnd`. -/
theorem Seek_within_source (st : AudioStream) (s : Nat)
    (hs : s < st._audio_input.TotalSamples) :
    (st.Seek s).GetCurrentSamplePosition = s
    ∧ (st.Seek s)._audio_input.position = s
    ∧ (st.Seek s).GetEndOfStream = false
    ∧ (st.Seek s)._looping = st._looping
    ∧ (st.Seek s)._loop_start_position = st._loop_start_position
    ∧ (st.Seek s)._loop_end_position = st._loop_end_position
    ∧ ∀ size : Nat, 0 < size → (st._looping = false ∨ s < st._loop_end_position) →
        ((st.Seek s).FillBuffer size).buffer.head? = st._audio_input.data[s]?
        ∧ 0 < ((st.Seek s).FillBuffer size).samples_read
        ∧ sourceSpan st._audio_input s
              (s + (if st._looping then min size (st._loop_end_position - s) else size))
            <+: ((st.Seek s).FillBuffer size).buffer := by
  have hmin : min s st._audio_input.TotalSamples = s := by omega
  have hpos : (st.Seek s)._read_position = s := by simp [AudioStream.Seek, hmin]
  have hdata : (st.Seek s)._audio_input.data = st._audio_input.data := rfl
  have hspan := AudioStream.FillBuffer_first_span (st.Seek s)
  refine ⟨hpos, by simp [AudioStream.Seek, AudioInput.Seek, hmin],
    by simp [AudioStream.GetEndOfStream, AudioStream.Seek, hmin, hs], rfl, rfl, rfl, ?_⟩
  intro size hsize hwin
  have hfirst := hspan size
  rw [hpos, hdata, AudioStream.Seek_looping] at hfirst
  have hto : (st.Seek s).samplesToLoopEnd
      = if s < st._loop_end_position then st._loop_end_position - s else 0 := by
    simp only [AudioStream.samplesToLoopEnd, hpos]; rfl
  have hcount : 0 < (if st._looping then min size (st.Seek s).samplesToLoopEnd else size) := by
    rcases hwin with h | h
    · simp [h, hsize]
    · rw [hto, if_pos h]; split <;> omega
  have hhead := AudioStream.head?_of_span_prefix _ _ s _ hcount hs hfirst
  refine ⟨hhead, ?_, ?_⟩
  · rw [← AudioStream.FillBuffer_buffer_length]
    cases hb : ((st.Seek s).FillBuffer size).buffer with
    | nil =>
      rw [hb] at hhead
      simp only [List.head?_nil] at hhead
      have := List.getElem?_eq_none_iff.mp hhead.symm
      simp only [AudioInput.TotalSamples] at hs
      omega
    | cons a l => simp
  · have hsame : (if st._looping then min size (st._loop_end_position - s) else size)
        = (if st._looping then min size (st.Seek s).samplesToLoopEnd else size) := by
      rcases hwin with h | h
      · simp [h]
      · rw [hto, if_pos h]
    rw [sourceSpan, hsame, Nat.add_sub_cancel_left]
    exact hfirst

/-- Witness for C9 (amended): in the looping stream with loop window `[1, 3)`,
`Seek(2)` goes to sample 2, inside the source and below the loop end. -/
theorem Seek_within_source_witness :
    (loopEndSeekExample.Seek 2).GetCurrentSamplePosition = 2
    ∧ (loopEndSeekExample.Seek 2)._audio_input.position = 2
    ∧ (loopEndSeekExample.Seek 2).GetEndOfStream = false
    ∧ (loopEndSeekExample.Seek 2)._looping = loopEndSeekExample._looping
    ∧ (loopEndSeekExample.Seek 2)._loop_start_position = loopEndSeekExample._loop_start_position
    ∧ (loopEndSeekExample.Seek 2)._loop_end_position = loopEndSeekExample._loop_end_position
    ∧ ∀ size : Nat, 0 < size →
        (loopEndSeekExample._looping = false ∨ 2 < loopEndSeekExample._loop_end_position) →
        ((loopEndSeekExample.Seek 2).FillBuffer size).buffer.head?
          = loopEndSeekExample._audio_input.data[2]?
        ∧ 0 < ((loopEndSeekExample.Seek 2).FillBuffer size).samples_read
        ∧ sourceSpan loopEndSeekExample._audio_input 2
              (2 + (if loopEndSeekExample._looping then
                  min size (loopEndSeekExample._loop_end_position - 2) else size))
            <+: ((loopEndSeekExample.Seek 2).FillBuffer size).buffer :=
  Seek_within_source loopEndSeekExample 2 (by decide)

/-- C10. For a source of length `L` and every sample `s ≥ L`, `Seek(s)` is not
ignored: it clamps, so that afterwards the read position (and the source
position) is `L`, the bound of the source nearest to `s`, whatever the read
position was before; the looping flag, the loop window and `end_of_stream` keep
their values. -/
theorem Seek_beyond_source_clamps (st : AudioStream) (s : Nat)
    (hs : st._audio_input.TotalSamples ≤ s) :
    (st.Seek s).GetCurrentSamplePosition = st._audio_input.TotalSamples
    ∧ (st.Seek s)._audio_input.position = st._audio_input.TotalSamples
    ∧ (st.Seek s)._audio_input.TotalSamples = st._audio_input.TotalSamples
    ∧ (st.Seek s)._looping = st._looping
    ∧ (st.Seek s)._loop_start_position = st._loop_start_position
    ∧ (st.Seek s)._loop_end_position = st._loop_end_position
    ∧ (st.Seek s)._end_of_stream = st._end_of_stream := by
  have hmin : min s st._audio_input.TotalSamples = st._audio_input.TotalSamples := by omega
  refine ⟨?_, ?_, rfl, rfl, rfl, rfl, ?_⟩
  · simp [AudioStream.GetCurrentSamplePosition, AudioStream.Seek, hmin]
  · simp [AudioStream.Seek, AudioInput.Seek, hmin]
  · simp [AudioStream.Seek, hmin]

/-- Witness for C10: from read position 0 of a five-sample source, `Seek(9)` ends
at 5, the source length, not at 0 and not at 9. -/
theorem Seek_beyond_source_clamps_witness :
    loopEndSeekExample._read_position = 0
    ∧ (loopEndSeekExample.Seek 9).GetCurrentSamplePosition = 5
    ∧ (loopEndSeekExample.Seek 9)._audio_input.position = 5
    ∧ (loopEndSeekExample.Seek 9)._audio_input.TotalSamples = 5
    ∧ (loopEndSeekExample.Seek 9)._looping = loopEndSeekExample._looping
    ∧ (loopEndSeekExample.Seek 9)._loop_start_position = loopEndSeekExample._loop_start_position
    ∧ (loopEndSeekExample.Seek 9)._loop_end_position = loopEndSeekExample._loop_end_position
    ∧ (loopEndSeekExample.Seek 9)._end_of_stream = loopEndSeekExample._end_of_stream :=
  ⟨rfl, Seek_beyond_source_clamps loopEndSeekExample 9 (by decide)⟩

end vt_audio

namespace vt_audio

/-- C11. For every sample value `v`, `SetLoopStart(v)` sets `loopStart` to `v` and
`SetLoopEnd(v)` sets `loopEnd` to `v`; no value is rejected, whatever the other
bound is, so a window with `loopEnd ≤ loopStart` can be set; and neither call
changes the read position, the looping flag, `end_of_stream`, the other bound
or the input. -/
theorem SetLoopStart_SetLoopEnd_frame (st : AudioStream) (v : Nat) :
    (st.SetLoopStart v)._loop_start_position = v
    ∧ st.SetLoopStart v = { st with _loop_start_position := v }
    ∧ (st.SetLoopStart v).GetCurrentSamplePosition = st.GetCurrentSamplePosition
    ∧ (st.SetLoopStart v).IsLooping = st.IsLooping
    ∧ (st.SetLoopStart v).GetEndOfStream = st.GetEndOfStream
    ∧ (st.SetLoopStart v)._loop_end_position = st._loop_end_position
    ∧ (st.SetLoopEnd v)._loop_end_position = v
    ∧ st.SetLoopEnd v = { st with _loop_end_position := v }
    ∧ (st.SetLoopEnd v).GetCurrentSamplePosition = st.GetCurrentSamplePosition
    ∧ (st.SetLoopEnd v).IsLooping = st.IsLooping
    ∧ (st.SetLoopEnd v).GetEndOfStream = st.GetEndOfStream
    ∧ (st.SetLoopEnd v)._loop_start_position = st._loop_start_position :=
  ⟨rfl, rfl, rfl, rfl, rfl, rfl, rfl, rfl, rfl, rfl, rfl, rfl⟩

end vt_audio

namespace vt_global

/-! ## Arithmetic on `uint32_t` -/

theorem sub32_of_le (a b : Nat) (ha : a < 4294967296) (hb : b ≤ a) : sub32 a b = a - b := by
  unfold sub32
  rw [show a + 4294967296 - b = (a - b) + 4294967296 by omega, Nat.add_mod_right]
  exact Nat.mod_eq_of_lt (by omega)

theorem toUInt32_of_nonneg (value : Int) (h0 : 0 ≤ value) (h1 : value < 4294967296) :
    (toUInt32 value : Int) = value := by
  unfold toUInt32
  rw [Int.emod_eq_of_lt h0 h1]
  exact Int.toNat_of_nonneg h0

/-! ## `GlobalCreateNewObject` and the constructors -/

/-- An item id that the items script has no table for: the constructor
invalidates the item it builds, and `GlobalCreateNewObject` hands out
`nullptr`. -/
theorem GlobalCreateNewObject_invalidated_example :
    (constructNewObject exampleConstants exampleGlobal 5 1).map NewObject.GetID = some 0
    ∧ GlobalCreateNewObject exampleConstants exampleGlobal 5 1 = none := by
  decide

/-- C12. For every id and count, `GlobalCreateNewObject` returns either null or
an object whose `GetID()` is not zero, that is, for which `IsValid()` is true:
an object that its constructor invalidated is never handed to the caller. -/
theorem GlobalCreateNewObject_null_or_valid (K : GlobalConstants) (G : GameGlobal)
    (id count : Nat) :
    GlobalCreateNewObject K G id count = none
    ∨ ∃ object : NewObject,
        GlobalCreateNewObject K G id count = some object
        ∧ constructNewObject K G id count = some object
        ∧ object.GetID ≠ 0
        ∧ object.IsValid = true := by
  unfold GlobalCreateNewObject
  cases hnew : constructNewObject K G id count with
  | none => exact Or.inl rfl
  | some new_object =>
    by_cases hid : new_object.GetID = 0
    · left; simp [hid]
    · right
      refine ⟨new_object, by simp [hid], rfl, hid, ?_⟩
      simpa [NewObject.IsValid, GlobalObject.IsValid, NewObject.GetID, GlobalObject.GetID]
        using hid

/-- C13. For every current count `c`, a 32-bit unsigned number, and every
decrement `n`, `DecrementCount(n)` leaves the count at `c - n` when `n ≤ c` and
at 0 when `n > c`; the count never grows (no wrap below zero), and no other
member changes, so the object is as valid as before, at count 0 too. -/
theorem DecrementCount_saturates (obj : GlobalObject) (n : Nat)
    (hc : obj._count < 4294967296) :
    (n ≤ obj._count → (obj.DecrementCount n).GetCount = obj._count - n)
    ∧ (obj._count < n → (obj.DecrementCount n).GetCount = 0)
    ∧ (obj.DecrementCount n).GetCount ≤ obj._count
    ∧ obj.DecrementCount n = { obj with _count := (obj.DecrementCount n).GetCount }
    ∧ (obj.DecrementCount n).IsValid = obj.IsValid := by
  by_cases h : n > obj._count
  · have hdec : obj.DecrementCount n = { obj with _count := 0 } := by
      simp [GlobalObject.DecrementCount, h]
    rw [hdec]
    refine ⟨fun h1 => absurd h1 (by omega), fun _ => rfl, Nat.zero_le _, rfl, rfl⟩
  · have hdec : obj.DecrementCount n = { obj with _count := obj._count - n } := by
      simp [GlobalObject.DecrementCount, h, sub32_of_le obj._count n hc (by omega)]
    rw [hdec]
    refine ⟨fun _ => rfl, fun h1 => absurd h1 (by omega), ?_, rfl, rfl⟩
    simp [GlobalObject.GetCount]

/-- Witness for C13: a count of 3 decremented by 5 is 0, not `2^32 - 2`. -/
theorem DecrementCount_saturates_witness :
    (5 ≤ (GlobalObject.create 7 3)._count →
        ((GlobalObject.create 7 3).DecrementCount 5).GetCount = (GlobalObject.create 7 3)._count - 5)
    ∧ ((GlobalObject.create 7 3)._count < 5 →
        ((GlobalObject.create 7 3).DecrementCount 5).GetCount = 0)
    ∧ ((GlobalObject.create 7 3).DecrementCount 5).GetCount ≤ (GlobalObject.create 7 3)._count
    ∧ (GlobalObject.create 7 3).DecrementCount 5
        = { GlobalObject.create 7 3 with
            _count := ((GlobalObject.create 7 3).DecrementCount 5).GetCount }
    ∧ ((GlobalObject.create 7 3).DecrementCount 5).IsValid = (GlobalObject.create 7 3).IsValid :=
  DecrementCount_saturates (GlobalObject.create 7 3) 5 (by decide)

/-- C14. For every `GlobalObject`, `IsValid()` is true exactly when `GetID()` is
not 0: a default-constructed object is invalid, `GlobalObject(id, count)` is
valid iff `id ≠ 0`, and `_InvalidateObject()` makes `IsValid()` false while it
leaves the count, the price and the key-item flag as they were. -/
theorem IsValid_iff_id_ne_zero (obj : GlobalObject) (id count : Nat) :
    (obj.IsValid = true ↔ obj.GetID ≠ 0)
    ∧ GlobalObject.create_default.IsValid = false
    ∧ ((GlobalObject.create id count).IsValid = true ↔ id ≠ 0)
    ∧ obj._InvalidateObject.IsValid = false
    ∧ obj._InvalidateObject.GetID = 0
    ∧ obj._InvalidateObject.GetCount = obj.GetCount
    ∧ obj._InvalidateObject.GetPrice = obj.GetPrice
    ∧ obj._InvalidateObject.IsKeyItem = obj.IsKeyItem := by
  refine ⟨?_, rfl, ?_, rfl, rfl, rfl, rfl, rfl⟩
  · simp [GlobalObject.IsValid, GlobalObject.GetID]
  · simp [GlobalObject.IsValid, GlobalObject.create]

/-- C15. Assuming `MAX_WEAPON_ID < MAX_HEAD_ARMOR_ID < MAX_TORSO_ARMOR_ID <
MAX_ARM_ARMOR_ID < MAX_LEG_ARMOR_ID`, `GlobalArmor::GetObjectType` returns the
head armor type exactly for ids in `(MAX_WEAPON_ID, MAX_HEAD_ARMOR_ID]`, torso
for `(MAX_HEAD_ARMOR_ID, MAX_TORSO_ARMOR_ID]`, arm for `(MAX_TORSO_ARMOR_ID,
MAX_ARM_ARMOR_ID]`, leg for `(MAX_ARM_ARMOR_ID, MAX_LEG_ARMOR_ID]`, and
`GLOBAL_OBJECT_INVALID` exactly for ids outside `(MAX_WEAPON_ID,
MAX_LEG_ARMOR_ID]`; hence the `default:` branch of the switch in the
`GlobalArmor` constructor ("could not determine armor type") is not taken once
the id-range guard of the constructor has passed. -/
theorem GetObjectType_armor_ranges (K : GlobalConstants) (G : GameGlobal) (armor : GlobalArmor)
    (h1 : K.MAX_WEAPON_ID < K.MAX_HEAD_ARMOR_ID)
    (h2 : K.MAX_HEAD_ARMOR_ID < K.MAX_TORSO_ARMOR_ID)
    (h3 : K.MAX_TORSO_ARMOR_ID < K.MAX_ARM_ARMOR_ID)
    (h4 : K.MAX_ARM_ARMOR_ID < K.MAX_LEG_ARMOR_ID) :
    (armor.GetObjectType K = GLOBAL_OBJECT.GLOBAL_OBJECT_HEAD_ARMOR
        ↔ K.MAX_WEAPON_ID < armor.GetID ∧ armor.GetID ≤ K.MAX_HEAD_ARMOR_ID)
    ∧ (armor.GetObjectType K = GLOBAL_OBJECT.GLOBAL_OBJECT_TORSO_ARMOR
        ↔ K.MAX_HEAD_ARMOR_ID < armor.GetID ∧ armor.GetID ≤ K.MAX_TORSO_ARMOR_ID)
    ∧ (armor.GetObjectType K = GLOBAL_OBJECT.GLOBAL_OBJECT_ARM_ARMOR
        ↔ K.MAX_TORSO_ARMOR_ID < armor.GetID ∧ armor.GetID ≤ K.MAX_ARM_ARMOR_ID)
    ∧ (armor.GetObjectType K = GLOBAL_OBJECT.GLOBAL_OBJECT_LEG_ARMOR
        ↔ K.MAX_ARM_ARMOR_ID < armor.GetID ∧ armor.GetID ≤ K.MAX_LEG_ARMOR_ID)
    ∧ (armor.GetObjectType K = GLOBAL_OBJECT.GLOBAL_OBJECT_INVALID
        ↔ ¬(K.MAX_WEAPON_ID < armor.GetID ∧ armor.GetID ≤ K.MAX_LEG_ARMOR_ID))
    ∧ (¬(armor.GetID ≤ K.MAX_WEAPON_ID ∨ armor.GetID > K.MAX_LEG_ARMOR_ID) →
        (armor.selectScript K G).isSome = true) := by
  simp only [GlobalObject.GetID]
  by_cases c1 : armor._id > K.MAX_WEAPON_ID ∧ armor._id ≤ K.MAX_HEAD_ARMOR_ID
  · have ht : armor.GetObjectType K = GLOBAL_OBJECT.GLOBAL_OBJECT_HEAD_ARMOR := by
      simp [GlobalArmor.GetObjectType, c1]
    simp only [GlobalArmor.selectScript, ht]
    refine ⟨?_, ?_, ?_, ?_, ?_, ?_⟩ <;> simp <;> omega
  · by_cases c2 : armor._id > K.MAX_HEAD_ARMOR_ID ∧ armor._id ≤ K.MAX_TORSO_ARMOR_ID
    · have ht : armor.GetObjectType K = GLOBAL_OBJECT.GLOBAL_OBJECT_TORSO_ARMOR := by
        simp [GlobalArmor.GetObjectType, c1, c2]
      simp only [GlobalArmor.selectScript, ht]
      refine ⟨?_, ?_, ?_, ?_, ?_, ?_⟩ <;> simp <;> omega
    · by_cases c3 : armor._id > K.MAX_TORSO_ARMOR_ID ∧ armor._id ≤ K.MAX_ARM_ARMOR_ID
      · have ht : armor.GetObjectType K = GLOBAL_OBJECT.GLOBAL_OBJECT_ARM_ARMOR := by
          simp [GlobalArmor.GetObjectType, c1, c2, c3]
        simp only [GlobalArmor.selectScript, ht]
        refine ⟨?_, ?_, ?_, ?_, ?_, ?_⟩ <;> simp <;> omega
      · by_cases c4 : armor._id > K.MAX_ARM_ARMOR_ID ∧ armor._id ≤ K.MAX_LEG_ARMOR_ID
        · have ht : armor.GetObjectType K = GLOBAL_OBJECT.GLOBAL_OBJECT_LEG_ARMOR := by
            simp [GlobalArmor.GetObjectType, c1, c2, c3, c4]
          simp only [GlobalArmor.selectScript, ht]
          refine ⟨?_, ?_, ?_, ?_, ?_, ?_⟩ <;> simp <;> omega
        · have ht : armor.GetObjectType K = GLOBAL_OBJECT.GLOBAL_OBJECT_INVALID := by
            simp [GlobalArmor.GetObjectType, c1, c2, c3, c4]
          simp only [GlobalArmor.selectScript, ht]
          refine ⟨?_, ?_, ?_, ?_, ?_, ?_⟩ <;> simp <;> omega

/-- Witness for C15: with the example constants the armor of id 35000 is torso
armor and the switch of the constructor finds its script. -/
theorem GetObjectType_armor_ranges_witness :
    (exampleArmor.GetObjectType exampleConstants = GLOBAL_OBJECT.GLOBAL_OBJECT_HEAD_ARMOR
        ↔ exampleConstants.MAX_WEAPON_ID < exampleArmor.GetID
          ∧ exampleArmor.GetID ≤ exampleConstants.MAX_HEAD_ARMOR_ID)
    ∧ (exampleArmor.GetObjectType exampleConstants = GLOBAL_OBJECT.GLOBAL_OBJECT_TORSO_ARMOR
        ↔ exampleConstants.MAX_HEAD_ARMOR_ID < exampleArmor.GetID
          ∧ exampleArmor.GetID ≤ exampleConstants.MAX_TORSO_ARMOR_ID)
    ∧ (exampleArmor.GetObjectType exampleConstants = GLOBAL_OBJECT.GLOBAL_OBJECT_ARM_ARMOR
        ↔ exampleConstants.MAX_TORSO_ARMOR_ID < exampleArmor.GetID
          ∧ exampleArmor.GetID ≤ exampleConstants.MAX_ARM_ARMOR_ID)
    ∧ (exampleArmor.GetObjectType exampleConstants = GLOBAL_OBJECT.GLOBAL_OBJECT_LEG_ARMOR
        ↔ exampleConstants.MAX_ARM_ARMOR_ID < exampleArmor.GetID
          ∧ exampleArmor.GetID ≤ exampleConstants.MAX_LEG_ARMOR_ID)
    ∧ (exampleArmor.GetObjectType exampleConstants = GLOBAL_OBJECT.GLOBAL_OBJECT_INVALID
        ↔ ¬(exampleConstants.MAX_WEAPON_ID < exampleArmor.GetID
          ∧ exampleArmor.GetID ≤ exampleConstants.MAX_LEG_ARMOR_ID))
    ∧ (¬(exampleArmor.GetID ≤ exampleConstants.MAX_WEAPON_ID
          ∨ exampleArmor.GetID > exampleConstants.MAX_LEG_ARMOR_ID) →
        (exampleArmor.selectScript exampleConstants exampleGlobal).isSome = true) :=
  GetObjectType_armor_ranges exampleConstants exampleGlobal exampleArmor
    (by decide) (by decide) (by decide) (by decide)

/-! ## Spirit slots -/

theorem resize_nil {α : Type} (count : Nat) (value : α) :
    resize ([] : List α) count value = List.replicate count value := by
  simp [resize]

theorem clampSpiritsNumber_eq_min (spirits_number : Nat) :
    clampSpiritsNumber spirits_number = min spirits_number 5 := by
  unfold clampSpiritsNumber
  split <;> omega

/-- The script that the switch of the armor constructor selects depends on the
id of the armor alone. -/
theorem GlobalArmor.selectScript_congr (K : GlobalConstants) (G : GameGlobal)
    (armor other : GlobalArmor) (h : armor._id = other._id) :
    armor.selectScript K G = other.selectScript K G := by
  simp [GlobalArmor.selectScript, GlobalArmor.GetObjectType, h]

theorem GlobalWeapon.create_weapon_slots_length (K : GlobalConstants) (G : GameGlobal)
    (id count : Nat) : (GlobalWeapon.create K G id count)._spirit_slots.length ≤ 5 := by
  unfold GlobalWeapon.create
  simp only
  split
  · simp
  · split
    · simp
    · split <;>
        simp [resize_nil, clampSpiritsNumber_eq_min]

theorem GlobalArmor.create_armor_slots_length (K : GlobalConstants) (G : GameGlobal)
    (id count : Nat) : (GlobalArmor.create K G id count)._spirit_slots.length ≤ 5 := by
  unfold GlobalArmor.create
  simp only
  split
  · simp
  · split
    · simp
    · split
      · simp
      · split <;>
          simp [resize_nil, clampSpiritsNumber_eq_min]

/-- C16. For every `slots` value read from the definition script, a
`GlobalWeapon` or `GlobalArmor` whose data loads (its id passes the range
guard and its script has a table for the id) ends with exactly `min(slots, 5)`
spirit slots, every one of them empty (null); and no weapon or armor that a
constructor builds ever has more than 5 spirit slots. -/
theorem spirit_slots_clamped_to_five (K : GlobalConstants) (G : GameGlobal) (id count : Nat) :
    (∀ table : ObjectTable,
        ¬(id ≤ K.MAX_ITEM_ID ∨ id > K.MAX_WEAPON_ID) →
        G.GetWeaponsScript.tables id = some table →
        (GlobalWeapon.create K G id count)._spirit_slots
          = List.replicate (min table.slots 5) none)
    ∧ (∀ (armor : GlobalArmor) (script_file : ReadScriptDescriptor) (table : ObjectTable),
        ¬(id ≤ K.MAX_WEAPON_ID ∨ id > K.MAX_LEG_ARMOR_ID) →
        armor._id = id →
        armor.selectScript K G = some script_file →
        script_file.tables id = some table →
        (GlobalArmor.create K G id count)._spirit_slots
          = List.replicate (min table.slots 5) none)
    ∧ (GlobalWeapon.create K G id count)._spirit_slots.length ≤ 5
    ∧ (GlobalArmor.create K G id count)._spirit_slots.length ≤ 5 := by
  refine ⟨?_, ?_, GlobalWeapon.create_weapon_slots_length K G id count,
    GlobalArmor.create_armor_slots_length K G id count⟩
  · intro table hguard htable
    unfold GlobalWeapon.create
    simp only [hguard, if_false, htable]
    split <;> simp [resize_nil, clampSpiritsNumber_eq_min]
  · intro armor script_file table hguard hid hselect htable
    have hsel : ({ toGlobalObject := GlobalObject.create id count
                   _physical_defense := 0
                   _magical_defense := 0
                   _usable_by := 0
                   _spirit_slots := [] } : GlobalArmor).selectScript K G = some script_file := by
      rw [← hselect]
      exact GlobalArmor.selectScript_congr K G _ _ (by simp [GlobalObject.create, hid])
    unfold GlobalArmor.create
    simp only [hguard, if_false, hsel, htable]
    split <;> simp [resize_nil, clampSpiritsNumber_eq_min]

/-- Witness for C16: with 9 slots declared in the script, the weapon of id 15000
and the armor of id 35000 both end with 5 empty slots. -/
theorem spirit_slots_clamped_to_five_witness :
    (GlobalWeapon.create exampleConstants exampleGlobal 15000 1)._spirit_slots
        = [none, none, none, none, none]
    ∧ (GlobalArmor.create exampleConstants exampleGlobal 35000 1)._spirit_slots
        = [none, none, none, none, none]
    ∧ (GlobalWeapon.create exampleConstants exampleGlobal 15000 1)._spirit_slots.length ≤ 5 :=
  ⟨(spirit_slots_clamped_to_five exampleConstants exampleGlobal 15000 1).1
      (exampleTable 9 none none) (by decide) rfl,
    (spirit_slots_clamped_to_five exampleConstants exampleGlobal 35000 1).2.1
      exampleArmor exampleScript (exampleTable 9 none none) (by decide) (by decide)
      rfl rfl,
    (spirit_slots_clamped_to_five exampleConstants exampleGlobal 15000 1).2.2.1⟩

/-! ## Trade conditions -/

/-- The loop of `_LoadTradeConditions` over any keys, from any object: the
conditions gain one entry per non-zero key, in order, and the trade price is
the quantity under key 0 if that key occurs. -/
theorem foldl_tradeConditionStep (table : ScriptTable Nat) (keys : List Nat)
    (obj : GlobalObject) :
    (keys.foldl (GlobalObject.tradeConditionStep table) obj)._trade_conditions
        = obj._trade_conditions
          ++ (keys.filter (fun key => key ≠ 0)).map
              (fun key => (key, toUInt32 (table.ReadInt key)))
    ∧ (keys.foldl (GlobalObject.tradeConditionStep table) obj)._trade_price
        = if 0 ∈ keys then toUInt32 (table.ReadInt 0) else obj._trade_price := by
  induction keys generalizing obj with
  | nil => simp
  | cons key keys ih =>
    rw [List.foldl_cons]
    obtain ⟨h1, h2⟩ := ih (GlobalObject.tradeConditionStep table obj key)
    rw [h1, h2]
    by_cases hkey : key = 0
    · subst hkey
      constructor
      · simp [GlobalObject.tradeConditionStep]
      · simp only [GlobalObject.tradeConditionStep, if_true, List.mem_cons, true_or]
        split <;> rfl
    · have hne : (0 : Nat) ≠ key := fun h => hkey h.symm
      constructor
      · simp [GlobalObject.tradeConditionStep, hkey]
      · simp [GlobalObject.tradeConditionStep, hkey, hne]

/-- C17. For every `trade_conditions` table loaded by `_LoadTradeConditions`
into an object with no prior trade conditions: no entry of the resulting list
has item id 0; the quantity stored under key 0 (as the `uint32_t` the code
reads it into) becomes the trade price; every entry with a non-zero key is
appended as `(key, quantity)` in table order; and the trade price is unchanged
when the table has no key 0. -/
theorem LoadTradeConditions_spec (obj : GlobalObject) (script : ObjectTable)
    (table : ScriptTable Nat)
    (hprior : obj._trade_conditions = [])
    (htable : script.trade_conditions = some table) :
    (obj._LoadTradeConditions script).GetTradeConditions
        = (table.keys.filter (fun key => key ≠ 0)).map
            (fun key => (key, toUInt32 (table.ReadInt key)))
    ∧ (∀ entry ∈ (obj._LoadTradeConditions script).GetTradeConditions, entry.1 ≠ 0)
    ∧ (0 ∈ table.keys →
        (obj._LoadTradeConditions script).GetTradingPrice = toUInt32 (table.ReadInt 0))
    ∧ (0 ∉ table.keys →
        (obj._LoadTradeConditions script).GetTradingPrice = obj.GetTradingPrice) := by
  have hrun : (obj._LoadTradeConditions script)
      = table.keys.foldl (GlobalObject.tradeConditionStep table) obj := by
    unfold GlobalObject._LoadTradeConditions
    rw [htable]
    simp only
    split
    · rename_i hempty
      rw [List.isEmpty_iff.mp hempty]
      rfl
    · rfl
  obtain ⟨h1, h2⟩ := foldl_tradeConditionStep table table.keys obj
  have hlist : (obj._LoadTradeConditions script).GetTradeConditions
      = (table.keys.filter (fun key => key ≠ 0)).map
          (fun key => (key, toUInt32 (table.ReadInt key))) := by
    rw [GlobalObject.GetTradeConditions, hrun, h1, hprior, List.nil_append]
  refine ⟨hlist, ?_, ?_, ?_⟩
  · intro entry hentry
    rw [hlist, List.mem_map] at hentry
    obtain ⟨key, hkey, rfl⟩ := hentry
    simpa using (List.mem_filter.mp hkey).2
  · intro h0
    rw [GlobalObject.GetTradingPrice, hrun, h2, if_pos h0]
  · intro h0
    rw [GlobalObject.GetTradingPrice, hrun, h2, if_neg h0]
    rfl

/-- Witness for C17: the table with the keys 3, 0, 7 and the quantities 13, 10,
17 gives the conditions `(3, 13), (7, 17)` and the trade price 10. -/
theorem LoadTradeConditions_spec_witness :
    ((GlobalObject.create 1 1)._LoadTradeConditions
        (exampleTable 0 (some exampleTradeTable) none)).GetTradeConditions = [(3, 13), (7, 17)]
    ∧ ((GlobalObject.create 1 1)._LoadTradeConditions
        (exampleTable 0 (some exampleTradeTable) none)).GetTradingPrice = 10 :=
  ⟨(LoadTradeConditions_spec (GlobalObject.create 1 1)
      (exampleTable 0 (some exampleTradeTable) none) exampleTradeTable rfl rfl).1,
    (LoadTradeConditions_spec (GlobalObject.create 1 1)
      (exampleTable 0 (some exampleTradeTable) none) exampleTradeTable rfl rfl).2.2.1
      (by decide)⟩

/-! ## Status effects -/

theorem foldl_statusEffectStep (K : GlobalConstants) (table : ScriptTable Int)
    (keys : List Int) (effects : List (Int × Int)) :
    keys.foldl (GlobalObject.statusEffectStep K table) effects
      = effects ++ keys.filterMap (GlobalObject.storedStatusEffect K table) := by
  induction keys generalizing effects with
  | nil => simp
  | cons key keys ih =>
    rw [List.foldl_cons, ih]
    unfold GlobalObject.statusEffectStep GlobalObject.storedStatusEffect
    by_cases h1 : key ≤ K.GLOBAL_STATUS_INVALID ∨ key ≥ K.GLOBAL_STATUS_TOTAL
    · simp [h1, List.filterMap_cons, GlobalObject.storedStatusEffect]
    · by_cases h2 : table.ReadInt key ≤ K.GLOBAL_INTENSITY_INVALID
          ∨ table.ReadInt key ≥ K.GLOBAL_INTENSITY_TOTAL
      · simp [h1, h2, List.filterMap_cons, GlobalObject.storedStatusEffect]
      · simp [h1, h2, List.filterMap_cons, GlobalObject.storedStatusEffect]

/-- What the loop stores for a key: the key with the intensity read for it, the
key inside the status range and the intensity inside the range that the code
checks, which starts right above `GLOBAL_INTENSITY_INVALID`. -/
theorem storedStatusEffect_eq_some (K : GlobalConstants) (table : ScriptTable Int)
    (key : Int) (effect : Int × Int)
    (h : GlobalObject.storedStatusEffect K table key = some effect) :
    effect = (key, table.ReadInt key)
    ∧ K.GLOBAL_STATUS_INVALID < key ∧ key < K.GLOBAL_STATUS_TOTAL
    ∧ K.GLOBAL_INTENSITY_INVALID < effect.2 ∧ effect.2 < K.GLOBAL_INTENSITY_TOTAL := by
  unfold GlobalObject.storedStatusEffect at h
  split at h
  · cases h
  · split at h
    · cases h
    · rename_i h1 h2
      cases h
      refine ⟨rfl, ?_, ?_, ?_, ?_⟩ <;> omega

/-- With a `status_effects` table present, `_LoadStatusEffects` leaves the
sorted list of what the object had and what the loop stores. -/
theorem LoadStatusEffects_eq (K : GlobalConstants) (obj : GlobalObject) (script : ObjectTable)
    (table : ScriptTable Int) (htable : script.status_effects = some table)
    (hprior : obj._status_effects = []) :
    (obj._LoadStatusEffects K script)._status_effects
      = GlobalObject.sortStatusEffects
          (table.keys.filterMap (GlobalObject.storedStatusEffect K table)) := by
  unfold GlobalObject._LoadStatusEffects
  rw [htable]
  simp only
  split
  · rename_i hempty
    rw [List.isEmpty_iff.mp hempty, hprior]
    rfl
  · simp only [foldl_statusEffectStep, hprior, List.nil_append]

/-- Whatever the constants are, as long as `GLOBAL_INTENSITY_NEUTRAL` lies
strictly between `GLOBAL_INTENSITY_INVALID` and `GLOBAL_INTENSITY_TOTAL`: a
table that gives a status inside the status range the intensity
`GLOBAL_INTENSITY_NEUTRAL` has that pair stored, an intensity that is not
above neutral. -/
theorem LoadStatusEffects_stores_neutral_intensity (K : GlobalConstants) (status : Int)
    (hstatus : K.GLOBAL_STATUS_INVALID < status ∧ status < K.GLOBAL_STATUS_TOTAL)
    (hlow : K.GLOBAL_INTENSITY_INVALID < K.GLOBAL_INTENSITY_NEUTRAL)
    (hhigh : K.GLOBAL_INTENSITY_NEUTRAL < K.GLOBAL_INTENSITY_TOTAL) :
    ((GlobalObject.create 1 1)._LoadStatusEffects K
        (exampleTable 0 none
          (some { keys := [status], ReadInt := fun _ => K.GLOBAL_INTENSITY_NEUTRAL }))).GetStatusEffects
      = [(status, K.GLOBAL_INTENSITY_NEUTRAL)] := by
  rw [GlobalObject.GetStatusEffects, LoadStatusEffects_eq K _ _ _ rfl rfl]
  have h1 : ¬(status ≤ K.GLOBAL_STATUS_INVALID ∨ status ≥ K.GLOBAL_STATUS_TOTAL) := by omega
  have h2 : ¬(K.GLOBAL_INTENSITY_NEUTRAL ≤ K.GLOBAL_INTENSITY_INVALID
      ∨ K.GLOBAL_INTENSITY_NEUTRAL ≥ K.GLOBAL_INTENSITY_TOTAL) := by omega
  simp [GlobalObject.storedStatusEffect, h1, h2, GlobalObject.sortStatusEffects]

/-- C18 fails on the code: with the status range `(-1, 16)` and the intensity
bounds `INVALID = -5`, `NEUTRAL = 0`, `TOTAL = 5`, a `status_effects` table
that gives the status 0 the intensity -1 is stored as it is, although -1 is not
above `GLOBAL_INTENSITY_NEUTRAL`: the loop skips an intensity only at or below
`GLOBAL_INTENSITY_INVALID`. -/
theorem LoadStatusEffects_stores_negative_intensity :
    ((GlobalObject.create 1 1)._LoadStatusEffects exampleConstants
        (exampleTable 0 none (some negativeIntensityTable))).GetStatusEffects = [(0, -1)]
    ∧ ¬(exampleConstants.GLOBAL_INTENSITY_NEUTRAL < -1)
    ∧ exampleConstants.GLOBAL_INTENSITY_INVALID < -1 := by
  decide

theorem CompareStatusEffects_eq_false_iff (one other : Int × Int) :
    GlobalObject.CompareStatusEffects other one = false
      ↔ toUInt32 one.1 ≤ toUInt32 other.1 := by
  simp [GlobalObject.CompareStatusEffects]

theorem sortStatusEffects_perm (effects : List (Int × Int)) :
    (GlobalObject.sortStatusEffects effects).Perm effects :=
  List.perm_insertionSort _ _

/-- The sorted list is in ascending order of the status ids as the comparison
sees them, converted to `uint32_t`. -/
theorem sortStatusEffects_sorted (effects : List (Int × Int)) :
    ((GlobalObject.sortStatusEffects effects).map (fun effect => toUInt32 effect.1)).Sorted
      (· ≤ ·) := by
  have hs := @List.sorted_insertionSort (Int × Int)
    (fun one other => GlobalObject.CompareStatusEffects other one = false) _
    ⟨fun a b => by
      simp only [CompareStatusEffects_eq_false_iff]
      exact Nat.le_total _ _⟩
    ⟨fun a b c hab hbc => by
      simp only [CompareStatusEffects_eq_false_iff] at hab hbc ⊢
      exact Nat.le_trans hab hbc⟩
    effects
  rw [List.Sorted, List.pairwise_map]
  exact List.Pairwise.imp (fun h => (CompareStatusEffects_eq_false_iff _ _).mp h) hs

/-- Two lists with the same keys, element by element, are equal if the key
tells the elements apart. -/
theorem eq_of_map_key_eq {α β : Type} (key : α → β) (l1 l2 : List α)
    (hinj : ∀ a ∈ l1, ∀ b ∈ l2, key a = key b → a = b)
    (hmap : l1.map key = l2.map key) : l1 = l2 := by
  induction l1 generalizing l2 with
  | nil =>
    cases l2 with
    | nil => rfl
    | cons b l2 => simp at hmap
  | cons a l1 ih =>
    cases l2 with
    | nil => simp at hmap
    | cons b l2 =>
      simp only [List.map_cons, List.cons.injEq] at hmap
      have hab : a = b := hinj a (List.mem_cons_self _ _) b (List.mem_cons_self _ _) hmap.1
      rw [hab, ih l2 (fun x hx y hy => hinj x (List.mem_cons_of_mem _ hx) y
        (List.mem_cons_of_mem _ hy)) hmap.2]

/-- The sort has one possible result when no two effects have the same status:
whatever list holds the same effects in an order that the comparison accepts
is the list that `sortStatusEffects` returns. -/
theorem sortStatusEffects_unique (effects other : List (Int × Int))
    (hinj : ∀ a ∈ effects, ∀ b ∈ effects, toUInt32 a.1 = toUInt32 b.1 → a = b)
    (hperm : other.Perm effects)
    (hsorted : other.Pairwise
      (fun one next => GlobalObject.CompareStatusEffects next one = false)) :
    other = GlobalObject.sortStatusEffects effects := by
  have hp : other.Perm (GlobalObject.sortStatusEffects effects) :=
    hperm.trans (sortStatusEffects_perm effects).symm
  have hs1 : (other.map (fun effect => toUInt32 effect.1)).Sorted (· ≤ ·) := by
    rw [List.Sorted, List.pairwise_map]
    exact List.Pairwise.imp (fun h => (CompareStatusEffects_eq_false_iff _ _).mp h) hsorted
  have hkeys := List.eq_of_perm_of_sorted (hp.map (fun effect => toUInt32 effect.1)) hs1
    (sortStatusEffects_sorted effects)
  exact eq_of_map_key_eq (fun effect => toUInt32 effect.1) _ _
    (fun a ha b hb => hinj a (hperm.mem_iff.mp ha) b
      ((sortStatusEffects_perm effects).mem_iff.mp hb))
    hkeys

/-- The statuses of what the loop stores are a sublist of the keys. -/
theorem storedStatusEffect_keys_sublist (K : GlobalConstants) (table : ScriptTable Int)
    (keys : List Int) :
    ((keys.filterMap (GlobalObject.storedStatusEffect K table)).map Prod.fst).Sublist keys := by
  induction keys with
  | nil => simp
  | cons key keys ih =>
    rw [List.filterMap_cons]
    cases h : GlobalObject.storedStatusEffect K table key with
    | none => exact ih.cons _
    | some effect =>
      have := (storedStatusEffect_eq_some K table key effect h).1
      subst this
      simpa using ih.cons₂ key

/-- C19. Status effects are always presented in the same order: for an object
whose status-effect list is empty and a `status_effects` table with distinct
keys, the list that `_LoadStatusEffects` produces is in ascending order of
status id, and it is the same list for every order in which the keys of the
table are enumerated.  The status range is taken to hold no negative id and
none beyond 32 bits (`-1 ≤ GLOBAL_STATUS_INVALID`, `GLOBAL_STATUS_TOTAL ≤ 2^32`),
as the comparison converts the ids to `uint32_t`. -/
theorem LoadStatusEffects_order_independent (K : GlobalConstants) (obj : GlobalObject)
    (script reordered : ObjectTable) (table other : ScriptTable Int)
    (hlow : -1 ≤ K.GLOBAL_STATUS_INVALID)
    (hhigh : K.GLOBAL_STATUS_TOTAL ≤ 4294967296)
    (hprior : obj._status_effects = [])
    (htable : script.status_effects = some table)
    (hother : reordered.status_effects = some other)
    (hread : other.ReadInt = table.ReadInt)
    (hnodup : table.keys.Nodup)
    (hperm : other.keys.Perm table.keys) :
    ((obj._LoadStatusEffects K script).GetStatusEffects.map Prod.fst).Sorted (· < ·)
    ∧ (obj._LoadStatusEffects K reordered).GetStatusEffects
        = (obj._LoadStatusEffects K script).GetStatusEffects := by
  simp only [GlobalObject.GetStatusEffects]
  rw [LoadStatusEffects_eq K obj script table htable hprior,
    LoadStatusEffects_eq K obj reordered other hother hprior]
  have hsame : GlobalObject.storedStatusEffect K other = GlobalObject.storedStatusEffect K table := by
    funext key
    simp [GlobalObject.storedStatusEffect, hread]
  rw [hsame]
  -- every stored effect is the table entry of a status id that survives the conversion
  have hmem : ∀ effect ∈ table.keys.filterMap (GlobalObject.storedStatusEffect K table),
      effect.2 = table.ReadInt effect.1 ∧ (toUInt32 effect.1 : Int) = effect.1 := by
    intro effect heffect
    obtain ⟨key, _, hkey⟩ := List.mem_filterMap.mp heffect
    obtain ⟨heq, h1, h2, _, _⟩ := storedStatusEffect_eq_some K table key effect hkey
    subst heq
    exact ⟨rfl, toUInt32_of_nonneg key (by omega) (by omega)⟩
  have hinj : ∀ a ∈ table.keys.filterMap (GlobalObject.storedStatusEffect K table),
      ∀ b ∈ table.keys.filterMap (GlobalObject.storedStatusEffect K table),
      toUInt32 a.1 = toUInt32 b.1 → a = b := by
    intro a ha b hb hab
    obtain ⟨ha2, ha1⟩ := hmem a ha
    obtain ⟨hb2, hb1⟩ := hmem b hb
    have h1 : a.1 = b.1 := by rw [← ha1, ← hb1, hab]
    exact Prod.ext h1 (by rw [ha2, hb2, h1])
  constructor
  · have hsorted := sortStatusEffects_sorted
      (table.keys.filterMap (GlobalObject.storedStatusEffect K table))
    have hp := sortStatusEffects_perm
      (table.keys.filterMap (GlobalObject.storedStatusEffect K table))
    have hle : ((GlobalObject.sortStatusEffects
        (table.keys.filterMap (GlobalObject.storedStatusEffect K table))).map Prod.fst).Sorted
        (· ≤ ·) := by
      rw [List.Sorted, List.pairwise_map] at hsorted ⊢
      refine List.Pairwise.imp_of_mem ?_ hsorted
      intro a b ha hb hab
      have ha1 := (hmem a (hp.mem_iff.mp ha)).2
      have hb1 := (hmem b (hp.mem_iff.mp hb)).2
      rw [← ha1, ← hb1]
      exact_mod_cast hab
    refine hle.lt_of_le ?_
    exact ((hp.map Prod.fst).nodup_iff).mpr
      ((storedStatusEffect_keys_sublist K table table.keys).nodup hnodup)
  · refine sortStatusEffects_unique _ _ hinj ?_ ?_
    · exact (sortStatusEffects_perm _).trans
        (hperm.filterMap (GlobalObject.storedStatusEffect K table))
    · have hs := sortStatusEffects_sorted
        (other.keys.filterMap (GlobalObject.storedStatusEffect K table))
      rw [List.Sorted, List.pairwise_map] at hs
      exact List.Pairwise.imp (fun h => (CompareStatusEffects_eq_false_iff _ _).mpr h) hs

/-- Witness for C19: the statuses 3, 1, 2 come out as 1, 2, 3, and so do they
when the table enumerates them as 2, 3, 1. -/
theorem LoadStatusEffects_order_independent_witness :
    (((GlobalObject.create 1 1)._LoadStatusEffects exampleConstants
        (exampleTable 0 none (some exampleStatusTable))).GetStatusEffects.map Prod.fst).Sorted
      (· < ·)
    ∧ ((GlobalObject.create 1 1)._LoadStatusEffects exampleConstants
        (exampleTable 0 none (some exampleStatusTableReordered))).GetStatusEffects
      = ((GlobalObject.create 1 1)._LoadStatusEffects exampleConstants
        (exampleTable 0 none (some exampleStatusTable))).GetStatusEffects :=
  LoadStatusEffects_order_independent exampleConstants (GlobalObject.create 1 1)
    (exampleTable 0 none (some exampleStatusTable))
    (exampleTable 0 none (some exampleStatusTableReordered))
    exampleStatusTable exampleStatusTableReordered
    (by decide) (by decide) rfl rfl rfl rfl (by decide) (by decide)

/-- The list of the witness for C19, evaluated. -/
theorem LoadStatusEffects_example :
    ((GlobalObject.create 1 1)._LoadStatusEffects exampleConstants
        (exampleTable 0 none (some exampleStatusTable))).GetStatusEffects
      = [(1, 1), (2, 2), (3, 3)] := by
  decide

/-! ## The class that `GlobalCreateNewObject` constructs -/

/-- C20. Assuming `0 < MAX_ITEM_ID < MAX_WEAPON_ID < MAX_LEG_ARMOR_ID <
MAX_SPIRIT_ID < MAX_KEY_ITEM_ID`, `GlobalCreateNewObject` constructs a
`GlobalItem` exactly for ids in `(0, MAX_ITEM_ID]` or `(MAX_SPIRIT_ID,
MAX_KEY_ITEM_ID]`, a `GlobalWeapon` exactly for `(MAX_ITEM_ID, MAX_WEAPON_ID]`,
a `GlobalArmor` exactly for `(MAX_WEAPON_ID, MAX_LEG_ARMOR_ID]` and a
`GlobalSpirit` exactly for `(MAX_LEG_ARMOR_ID, MAX_SPIRIT_ID]`, each with the
id and count it was given; no id lies in two of these ranges; and for `id = 0`
and every `id > MAX_KEY_ITEM_ID` it constructs nothing and returns null. -/
theorem GlobalCreateNewObject_class_by_range (K : GlobalConstants) (G : GameGlobal)
    (id count : Nat)
    (h0 : 0 < K.MAX_ITEM_ID)
    (h1 : K.MAX_ITEM_ID < K.MAX_WEAPON_ID)
    (h2 : K.MAX_WEAPON_ID < K.MAX_LEG_ARMOR_ID)
    (h3 : K.MAX_LEG_ARMOR_ID < K.MAX_SPIRIT_ID)
    (h4 : K.MAX_SPIRIT_ID < K.MAX_KEY_ITEM_ID) :
    (constructNewObject K G id count = some (NewObject.item (GlobalItem.create K G id count))
        ↔ (0 < id ∧ id ≤ K.MAX_ITEM_ID) ∨ (K.MAX_SPIRIT_ID < id ∧ id ≤ K.MAX_KEY_ITEM_ID))
    ∧ ((∃ object, constructNewObject K G id count = some (NewObject.item object))
        ↔ (0 < id ∧ id ≤ K.MAX_ITEM_ID) ∨ (K.MAX_SPIRIT_ID < id ∧ id ≤ K.MAX_KEY_ITEM_ID))
    ∧ (constructNewObject K G id count = some (NewObject.weapon (GlobalWeapon.create K G id count))
        ↔ K.MAX_ITEM_ID < id ∧ id ≤ K.MAX_WEAPON_ID)
    ∧ ((∃ object, constructNewObject K G id count = some (NewObject.weapon object))
        ↔ K.MAX_ITEM_ID < id ∧ id ≤ K.MAX_WEAPON_ID)
    ∧ (constructNewObject K G id count = some (NewObject.armor (GlobalArmor.create K G id count))
        ↔ K.MAX_WEAPON_ID < id ∧ id ≤ K.MAX_LEG_ARMOR_ID)
    ∧ ((∃ object, constructNewObject K G id count = some (NewObject.armor object))
        ↔ K.MAX_WEAPON_ID < id ∧ id ≤ K.MAX_LEG_ARMOR_ID)
    ∧ (constructNewObject K G id count = some (NewObject.spirit (GlobalSpirit.create K G id count))
        ↔ K.MAX_LEG_ARMOR_ID < id ∧ id ≤ K.MAX_SPIRIT_ID)
    ∧ ((∃ object, constructNewObject K G id count = some (NewObject.spirit object))
        ↔ K.MAX_LEG_ARMOR_ID < id ∧ id ≤ K.MAX_SPIRIT_ID)
    ∧ ¬(((0 < id ∧ id ≤ K.MAX_ITEM_ID) ∨ (K.MAX_SPIRIT_ID < id ∧ id ≤ K.MAX_KEY_ITEM_ID))
        ∧ (K.MAX_ITEM_ID < id ∧ id ≤ K.MAX_WEAPON_ID))
    ∧ ¬(((0 < id ∧ id ≤ K.MAX_ITEM_ID) ∨ (K.MAX_SPIRIT_ID < id ∧ id ≤ K.MAX_KEY_ITEM_ID))
        ∧ (K.MAX_WEAPON_ID < id ∧ id ≤ K.MAX_LEG_ARMOR_ID))
    ∧ ¬(((0 < id ∧ id ≤ K.MAX_ITEM_ID) ∨ (K.MAX_SPIRIT_ID < id ∧ id ≤ K.MAX_KEY_ITEM_ID))
        ∧ (K.MAX_LEG_ARMOR_ID < id ∧ id ≤ K.MAX_SPIRIT_ID))
    ∧ ¬((K.MAX_ITEM_ID < id ∧ id ≤ K.MAX_WEAPON_ID)
        ∧ (K.MAX_WEAPON_ID < id ∧ id ≤ K.MAX_LEG_ARMOR_ID))
    ∧ ¬((K.MAX_ITEM_ID < id ∧ id ≤ K.MAX_WEAPON_ID)
        ∧ (K.MAX_LEG_ARMOR_ID < id ∧ id ≤ K.MAX_SPIRIT_ID))
    ∧ ¬((K.MAX_WEAPON_ID < id ∧ id ≤ K.MAX_LEG_ARMOR_ID)
        ∧ (K.MAX_LEG_ARMOR_ID < id ∧ id ≤ K.MAX_SPIRIT_ID))
    ∧ (id = 0 ∨ K.MAX_KEY_ITEM_ID < id →
        constructNewObject K G id count = none ∧ GlobalCreateNewObject K G id count = none) := by
  have hitem : (0 < id ∧ id ≤ K.MAX_ITEM_ID) ∨ (K.MAX_SPIRIT_ID < id ∧ id ≤ K.MAX_KEY_ITEM_ID) →
      constructNewObject K G id count = some (NewObject.item (GlobalItem.create K G id count)) := by
    intro h
    have h' : (id > 0 ∧ id ≤ K.MAX_ITEM_ID) ∨ (id > K.MAX_SPIRIT_ID ∧ id ≤ K.MAX_KEY_ITEM_ID) := h
    unfold constructNewObject
    rw [if_pos h']
  have hweapon : K.MAX_ITEM_ID < id ∧ id ≤ K.MAX_WEAPON_ID →
      constructNewObject K G id count
        = some (NewObject.weapon (GlobalWeapon.create K G id count)) := by
    intro h
    have hn : ¬((id > 0 ∧ id ≤ K.MAX_ITEM_ID) ∨ (id > K.MAX_SPIRIT_ID ∧ id ≤ K.MAX_KEY_ITEM_ID)) := by
      omega
    have h' : id > K.MAX_ITEM_ID ∧ id ≤ K.MAX_WEAPON_ID := h
    unfold constructNewObject
    rw [if_neg hn, if_pos h']
  have harmor : K.MAX_WEAPON_ID < id ∧ id ≤ K.MAX_LEG_ARMOR_ID →
      constructNewObject K G id count
        = some (NewObject.armor (GlobalArmor.create K G id count)) := by
    intro h
    have hn : ¬((id > 0 ∧ id ≤ K.MAX_ITEM_ID) ∨ (id > K.MAX_SPIRIT_ID ∧ id ≤ K.MAX_KEY_ITEM_ID)) := by
      omega
    have hw : ¬(id > K.MAX_ITEM_ID ∧ id ≤ K.MAX_WEAPON_ID) := by omega
    have h' : id > K.MAX_WEAPON_ID ∧ id ≤ K.MAX_LEG_ARMOR_ID := h
    unfold constructNewObject
    rw [if_neg hn, if_neg hw, if_pos h']
  have hspirit : K.MAX_LEG_ARMOR_ID < id ∧ id ≤ K.MAX_SPIRIT_ID →
      constructNewObject K G id count
        = some (NewObject.spirit (GlobalSpirit.create K G id count)) := by
    intro h
    have hn : ¬((id > 0 ∧ id ≤ K.MAX_ITEM_ID) ∨ (id > K.MAX_SPIRIT_ID ∧ id ≤ K.MAX_KEY_ITEM_ID)) := by
      omega
    have hw : ¬(id > K.MAX_ITEM_ID ∧ id ≤ K.MAX_WEAPON_ID) := by omega
    have ha : ¬(id > K.MAX_WEAPON_ID ∧ id ≤ K.MAX_LEG_ARMOR_ID) := by omega
    have h' : id > K.MAX_LEG_ARMOR_ID ∧ id ≤ K.MAX_SPIRIT_ID := h
    unfold constructNewObject
    rw [if_neg hn, if_neg hw, if_neg ha, if_pos h']
  have hnone : id = 0 ∨ K.MAX_KEY_ITEM_ID < id → constructNewObject K G id count = none := by
    intro h
    have hn : ¬((id > 0 ∧ id ≤ K.MAX_ITEM_ID) ∨ (id > K.MAX_SPIRIT_ID ∧ id ≤ K.MAX_KEY_ITEM_ID)) := by
      omega
    have hw : ¬(id > K.MAX_ITEM_ID ∧ id ≤ K.MAX_WEAPON_ID) := by omega
    have ha : ¬(id > K.MAX_WEAPON_ID ∧ id ≤ K.MAX_LEG_ARMOR_ID) := by omega
    have hs : ¬(id > K.MAX_LEG_ARMOR_ID ∧ id ≤ K.MAX_SPIRIT_ID) := by omega
    unfold constructNewObject
    rw [if_neg hn, if_neg hw, if_neg ha, if_neg hs]
  -- each id is in one of the four ranges or in the rest
  have hcases : ((0 < id ∧ id ≤ K.MAX_ITEM_ID) ∨ (K.MAX_SPIRIT_ID < id ∧ id ≤ K.MAX_KEY_ITEM_ID))
      ∨ (K.MAX_ITEM_ID < id ∧ id ≤ K.MAX_WEAPON_ID)
      ∨ (K.MAX_WEAPON_ID < id ∧ id ≤ K.MAX_LEG_ARMOR_ID)
      ∨ (K.MAX_LEG_ARMOR_ID < id ∧ id ≤ K.MAX_SPIRIT_ID)
      ∨ (id = 0 ∨ K.MAX_KEY_ITEM_ID < id) := by omega
  refine ⟨⟨?_, hitem⟩, ⟨?_, fun h => ⟨_, hitem h⟩⟩, ⟨?_, hweapon⟩, ⟨?_, fun h => ⟨_, hweapon h⟩⟩,
    ⟨?_, harmor⟩, ⟨?_, fun h => ⟨_, harmor h⟩⟩, ⟨?_, hspirit⟩, ⟨?_, fun h => ⟨_, hspirit h⟩⟩,
    by omega, by omega, by omega, by omega, by omega, by omega,
    fun h => ⟨hnone h, by simp [GlobalCreateNewObject, hnone h]⟩⟩
  all_goals
    intro h
    rcases hcases with hc | hc | hc | hc | hc
    · first | exact hc | simp [hitem hc] at h
    · first | exact hc | simp [hweapon hc] at h
    · first | exact hc | simp [harmor hc] at h
    · first | exact hc | simp [hspirit hc] at h
    · simp [hnone hc] at h

/-- Witness for C20: with the example constants, the id 15000 makes a weapon. -/
theorem GlobalCreateNewObject_class_by_range_witness :
    constructNewObject exampleConstants exampleGlobal 15000 1
      = some (NewObject.weapon (GlobalWeapon.create exampleConstants exampleGlobal 15000 1))
    ∧ constructNewObject exampleConstants exampleGlobal 0 1 = none
    ∧ GlobalCreateNewObject exampleConstants exampleGlobal 0 1 = none
    ∧ GlobalCreateNewObject exampleConstants exampleGlobal 80001 1 = none :=
  ⟨(GlobalCreateNewObject_class_by_range exampleConstants exampleGlobal 15000 1
      (by decide) (by decide) (by decide) (by decide) (by decide)).2.2.1.mpr (by decide),
    ((GlobalCreateNewObject_class_by_range exampleConstants exampleGlobal 0 1
      (by decide) (by decide) (by decide) (by decide) (by decide)).2.2.2.2.2.2.2.2.2.2.2.2.2.2
      (Or.inl rfl)).1,
    ((GlobalCreateNewObject_class_by_range exampleConstants exampleGlobal 0 1
      (by decide) (by decide) (by decide) (by decide) (by decide)).2.2.2.2.2.2.2.2.2.2.2.2.2.2
      (Or.inl rfl)).2,
    ((GlobalCreateNewObject_class_by_range exampleConstants exampleGlobal 80001 1
      (by decide) (by decide) (by decide) (by decide) (by decide)).2.2.2.2.2.2.2.2.2.2.2.2.2.2
      (Or.inr (by decide))).2⟩

end vt_global
